import Mathlib

/-!
# Verification of the hbc-portal credit-ledger / booking-pass / webhook core

This file gives a shallow embedding, in Lean, of the core logic of the
hbc-portal repository: the credit ledger and its derived balance, the Stripe
webhook handler (event dedup, credit grants, booking-pass minting), the
admin booking-pass mint routes, the booking-pass redemption edge function,
the Calendly webhook handler (identity resolution via booking-pass token,
credit redemption, insufficient-credit issue records), and the SignNow
"looks signed / looks completed" detectors.

Conventions of the embedding:
* Database tables are Lean lists inside one `DB` record; row ids are `Nat`
  drawn from a `nextId` counter.
* JavaScript `null`/`undefined` become `Option`; JS truthiness of strings
  ("" is falsy) is modelled explicitly where the source relies on it.
* Timestamps are `Int` milliseconds.
* External calls (Stripe API reads, SignNow, email) are pure data supplied
  through an environment record; the effects the handlers perform are
  additionally reported as an ordered `Effect` trace where a claim is about
  effect ordering.
* SQL string matching `ilike '%x%'` is modelled by case-folded substring
  containment (`containsSub`).
* Definitions carrying a doc comment starting with `Modelled from the spec:`
  embed database-side code (views / RPC functions) that is not part of the
  application sources; they follow the specification's wording.
-/

/-- JS `String.prototype.trim`, as a structurally recursive function over
the string's character list (the library `String.trim` is defined by
well-founded recursion, which the kernel cannot evaluate). -/
def jsTrim (s : String) : String :=
  ⟨((s.data.dropWhile Char.isWhitespace).reverse.dropWhile Char.isWhitespace).reverse⟩

/-- JS `String.prototype.toLowerCase`, over the character list. -/
def jsToLower (s : String) : String :=
  ⟨s.data.map Char.toLower⟩

/-- Substring containment on character lists, structurally recursive. -/
def containsSubAux (needle : List Char) : List Char → Bool
  | [] => needle.isEmpty
  | c :: t => needle.isPrefixOf (c :: t) || containsSubAux needle t

/-- Substring containment, modelling SQL `ilike '%needle%'` and JS
`String.prototype.includes` (case folding is applied by callers that need
it). -/
def containsSub (hay needle : String) : Bool :=
  containsSubAux needle.data hay.data

/-- A SHA-256 hex digest, abstracted: the model tracks only the preimage and
keeps digests in a type distinct from raw token strings, mirroring the
`token` vs `token_hash` columns. (The source computes an unsalted
`crypto.createHash("sha256")` digest.) -/
structure Sha256Hex where
  preimage : String
deriving DecidableEq, Repr

/-- `sha256Hex` from the admin booking-pass send route. -/
def sha256Hex (s : String) : Sha256Hex := ⟨s⟩

/-- A row of the `members` table. -/
structure Member where
  id : Nat
  email : String
  firstName : Option String
  lastName : Option String
  phone : Option String
deriving DecidableEq, Repr

/-- A row of the `credits_ledger` table (`quantity` is nullable in the
schema: the balance loops read it as `r.quantity ?? 0`). -/
structure LedgerEntry where
  memberId : Nat
  entryType : String
  quantity : Option Int
  reason : String
deriving DecidableEq, Repr

/-- A row of the `booking_passes` table. -/
structure BookingPass where
  id : Nat
  token : Option String
  tokenHash : Option Sha256Hex
  email : String
  stripeSessionId : Option String
  expiresAt : Option Int
  usedAt : Option Int
  memberId : Option Nat
deriving DecidableEq, Repr

/-- A row of the `rsvps` table (written by the `redeem_credit_for_calendly`
database function and corrected by the Calendly webhook handler). -/
structure Rsvp where
  id : Nat
  calendlyInviteeUri : String
  calendlyEventUri : String
  inviteeEmail : String
  inviteeName : Option String
  startAt : String
  endAt : Option String
  memberId : Nat
  canceled : Bool
deriving DecidableEq, Repr

/-- A row of the `calendly_booking_issues` table (the columns the webhook
handler's upsert payload writes). -/
structure BookingIssue where
  calendlyInviteeUri : String
  calendlyEventUri : String
  inviteeEmail : String
  memberId : Option Nat
  eventStartAt : Option String
  eventEndAt : Option String
  errorCode : String
  errorMessage : String
deriving DecidableEq, Repr

/-- A row of the `waivers` table (the columns the Calendly handler writes). -/
structure Waiver where
  calendlyInviteeUri : Option String
  recipientEmail : String
  waiverYear : Nat
  status : String
  externalDocumentId : Option String
  sentAt : Option Int
  signedAt : Option Int
  memberId : Option Nat
  recipientName : Option String
  attendeeName : Option String
deriving DecidableEq, Repr

/-- The database state shared by all handlers. -/
structure DB where
  stripeEvents : List String
  members : List Member
  creditsLedger : List LedgerEntry
  bookingPasses : List BookingPass
  guestProfiles : List String
  rsvps : List Rsvp
  bookingIssues : List BookingIssue
  waivers : List Waiver
  nextId : Nat
deriving DecidableEq, Repr

def DB.empty : DB := ⟨[], [], [], [], [], [], [], [], 0⟩

/-! ## Credit ledger balance -/

/-- Sum of the (null-coalesced) quantities of a member's ledger rows of one
entry type. -/
def sumOfType (rows : List LedgerEntry) (t : String) : Int :=
  ((rows.filter (fun r => r.entryType == t)).map (fun r => r.quantity.getD 0)).sum

/-- The balance loop of the admin booking-pass send route, computed over the
member's `credits_ledger` rows immediately before sending a booking pass:
`grant`/`refund` add `quantity ?? 0`, `redeem` subtracts it, anything else is
ignored. -/
def sendRouteBalance (rows : List LedgerEntry) : Int :=
  rows.foldl
    (fun b r =>
      if r.entryType == "grant" || r.entryType == "refund" then b + r.quantity.getD 0
      else if r.entryType == "redeem" then b - r.quantity.getD 0
      else b)
    0

/-- Modelled from the spec: the `v_member_credit_balance` materialized view
(database-side, not in the application sources). The spec defines the
reported balance as the sum of signed ledger deltas, `+quantity` for `grant`
and `refund`, `-quantity` for `redeem`. -/
def v_member_credit_balance (rows : List LedgerEntry) : Int :=
  (rows.map (fun r =>
    if r.entryType == "grant" || r.entryType == "refund" then r.quantity.getD 0
    else if r.entryType == "redeem" then -(r.quantity.getD 0)
    else 0)).sum

/-! ## Stripe webhook handler -/

/-- The observable actions the Stripe webhook handler performs against the
database / outbound collaborators, in program order. -/
inductive Effect
  | memberCreate (email : String)
  | phoneBackfill (memberId : Nat)
  | grantInsert (memberId : Nat) (qty : Int) (reason : String)
  | guestUpsert (email : String)
  | passBackfill (passId : Nat)
  | passInsert (email : String) (token : String)
  | emailSend (recipient : String)
  | markProcessed (eventId : String)
deriving DecidableEq, Repr

/-- Is this effect the `stripe_events` dedup insert (`markProcessed`)? -/
def isMark : Effect → Bool
  | .markProcessed _ => true
  | _ => false

/-- A line item as returned by `stripe.checkout.sessions.listLineItems` or
carried on an invoice: the resolved price id (after the source's fallback
chain over response shapes) and the quantity (`?? 1` when absent). -/
structure LineItem where
  priceId : Option String
  quantity : Option Int
deriving DecidableEq, Repr

/-- A `checkout.session.completed` payload, restricted to the fields the
handler reads. Metadata credit fields are the `Number.parseInt` results,
with `none` covering both an absent field and an unparseable (NaN) one. -/
structure CheckoutSession where
  sessionId : String
  mode : String
  paymentStatus : Option String
  customerDetailsEmail : Option String
  customerEmail : Option String
  customerDetailsName : Option String
  customerDetailsPhone : Option String
  metadataCredits : Option Int
  metadataCredit : Option Int
  metadataBookingCredits : Option Int
  metadataPurchaseType : Option String
  amountTotal : Option Int
  customerId : Option String
  lineItems : List LineItem
deriving DecidableEq, Repr

/-- An `invoice.payment_succeeded` payload (after the handler re-fetches the
invoice with expanded line prices): each line's price id is the result of
the source's fallback chain over response shapes. -/
structure StripeInvoice where
  invoiceId : String
  customerEmail : Option String
  customerObjEmail : Option String
  customerId : Option String
  lines : List LineItem
deriving DecidableEq, Repr

inductive StripeEvent
  | checkoutCompleted (id : String) (s : CheckoutSession)
  | invoicePaid (id : String) (inv : StripeInvoice)
  | other (id : String) (eventType : String)
deriving DecidableEq, Repr

def StripeEvent.eid : StripeEvent → String
  | .checkoutCompleted i _ => i
  | .invoicePaid i _ => i
  | .other i _ => i

/-- Environment of a single webhook request: signature verification outcome,
current time, the random token generated for a freshly minted pass, and the
Stripe customers lookup used to resolve an invoice email. -/
structure StripeEnv where
  sigOk : Bool
  now : Int
  freshToken : String
  customers : String → Option String

/-- `PRICE_TO_CREDITS`: the fixed Stripe price-id → credits table
(`?? 0` for unmapped ids). -/
def PRICE_TO_CREDITS (p : String) : Int :=
  if p == "price_1Sq1PW74RZAQay6edMvp2D58" then 1
  else if p == "price_1SnXJM74RZAQay6ecf6zGUaZ" then 1
  else if p == "price_1SnXOq74RZAQay6eC51mfDPa" then 4
  else 0

/-- `alreadyProcessed`: read-only lookup of the event id in `stripe_events`. -/
def alreadyProcessed (db : DB) (eventId : String) : Bool :=
  db.stripeEvents.contains eventId

/-- `markProcessed`: insert of the event id into `stripe_events` (the
`event_type` column is also written but never read back by the dedup). -/
def markProcessed (db : DB) (eventId : String) : DB :=
  { db with stripeEvents := db.stripeEvents ++ [eventId] }

/-- Result of `getOrCreateMemberByEmail`: the updated database, the member
id, and the mutation effects performed. -/
structure GocmOut where
  db : DB
  memberId : Nat
  trace : List Effect

/-- `getOrCreateMemberByEmail`: find the member by normalized email,
backfilling the phone from Stripe if the stored one is absent; otherwise
insert a new member row without names. -/
def getOrCreateMemberByEmail (db : DB) (email : String) (phone : Option String) : GocmOut :=
  let emailNormalized := jsToLower (jsTrim email)
  match db.members.find? (fun m => m.email == emailNormalized) with
  | some m =>
    if m.phone == none && phone.isSome then
      ⟨{ db with members :=
          db.members.map (fun x => if x.id == m.id then { x with phone := phone } else x) },
        m.id, [.phoneBackfill m.id]⟩
    else ⟨db, m.id, []⟩
  | none =>
    let mid := db.nextId
    ⟨{ db with
        members := db.members ++ [⟨mid, emailNormalized, none, none, phone⟩],
        nextId := mid + 1 },
      mid, [.memberCreate emailNormalized]⟩

/-- `creditGrantExistsForSession`: does a grant row for this member exist
whose reason contains the checkout session id (SQL `ilike '%id%'`)? -/
def creditGrantExistsForSession (db : DB) (memberId : Nat) (stripeSessionId : String) : Bool :=
  db.creditsLedger.any (fun r =>
    r.memberId == memberId && r.entryType == "grant" &&
      containsSub (jsToLower r.reason) (jsToLower stripeSessionId))

/-- `grantCredits`: insert a grant ledger row (no-op for a zero quantity). -/
def grantCredits (db : DB) (memberId : Nat) (qty : Int) (reason : String) :
    DB × List Effect :=
  if qty == 0 then (db, [])
  else
    ({ db with creditsLedger := db.creditsLedger ++ [⟨memberId, "grant", some qty, reason⟩] },
      [.grantInsert memberId qty reason])

/-- The `guest_profiles` upsert keyed on the normalized email. -/
def guestProfilesUpsert (db : DB) (email : String) : DB :=
  let key := jsToLower (jsTrim email)
  if db.guestProfiles.contains key then db
  else { db with guestProfiles := db.guestProfiles ++ [key] }

/-- The checkout-session credits computation: metadata credits first, then
the line-item price mapping, then the final `guest_pass` / `amount_total ==
4500` fallback. -/
def computeCheckoutCredits (s : CheckoutSession) : Int :=
  let metaCreditsRaw := s.metadataCredits <|> s.metadataCredit <|> s.metadataBookingCredits
  let credits1 : Int := metaCreditsRaw.getD 0
  let credits2 : Int :=
    if credits1 ≤ 0 then
      s.lineItems.foldl
        (fun acc li =>
          acc + (match li.priceId with | some p => PRICE_TO_CREDITS p | none => 0)
            * li.quantity.getD 1)
        0
    else credits1
  if credits2 ≤ 0 then
    if s.metadataPurchaseType == some "guest_pass" || s.amountTotal.getD 0 == 4500 then 1
    else credits2
  else credits2

/-- The guard of the "Not paid" early return: payment status present and not
`"paid"`. -/
def notPaidGuard (s : CheckoutSession) : Bool :=
  match s.paymentStatus with
  | some ps => ps != "paid"
  | none => false

/-- The email resolution on a checkout session. -/
def resolveCheckoutEmail (s : CheckoutSession) : Option String :=
  s.customerDetailsEmail <|> s.customerEmail

/-- The email resolution on an invoice (direct field, expanded customer
object, then a Stripe customers API lookup). -/
def resolveInvoiceEmail (env : StripeEnv) (inv : StripeInvoice) : Option String :=
  inv.customerEmail <|> inv.customerObjEmail <|>
    (match inv.customerId with | some c => env.customers c | none => none)

/-- The invoice credits computation over the expanded line items. -/
def invoiceCredits (inv : StripeInvoice) : Int :=
  inv.lines.foldl
    (fun acc li =>
      acc + (match li.priceId with | some p => PRICE_TO_CREDITS p | none => 0)
        * li.quantity.getD 1)
    0

/-- The conditional grant of the checkout path: skipped entirely when a
grant for this session already exists (`creditGrantExistsForSession`). -/
def grantStep (db : DB) (memberId : Nat) (alreadyGranted : Bool) (credits : Int)
    (reason : String) : DB × List Effect :=
  if alreadyGranted then (db, []) else grantCredits db memberId credits reason

/-- Outcome of one Stripe webhook request: final database, HTTP status, and
the ordered trace of mutation effects performed before responding. -/
structure StripeOut where
  db : DB
  status : Nat
  trace : List Effect

/-- The `POST` handler of `src/app/api/stripe/webhook/route.ts`. Thrown
errors (missing email, uncomputable credits) surface as the catch-all 500
response; they occur before any mutation, so they leave the database
unchanged and the trace empty. -/
def stripeWebhookPOST (env : StripeEnv) (ev : StripeEvent) (db : DB) : StripeOut :=
  if !env.sigOk then ⟨db, 400, []⟩
  else if alreadyProcessed db ev.eid then ⟨db, 200, []⟩
  else
    match ev with
    | .checkoutCompleted id s =>
      if s.mode == "subscription" then ⟨markProcessed db id, 200, [.markProcessed id]⟩
      else if notPaidGuard s then ⟨markProcessed db id, 200, [.markProcessed id]⟩
      else
        match resolveCheckoutEmail s with
        | none => ⟨db, 500, []⟩
        | some email =>
          let credits := computeCheckoutCredits s
          if credits ≤ 0 then ⟨db, 500, []⟩
          else
            let g := getOrCreateMemberByEmail db email s.customerDetailsPhone
            let alreadyGranted := creditGrantExistsForSession g.db g.memberId s.sessionId
            let reason :=
              "stripe checkout.session.completed | session=" ++ s.sessionId
                ++ " | event=" ++ id
            let gr := grantStep g.db g.memberId alreadyGranted credits reason
            let db3 := guestProfilesUpsert gr.1 email
            match db3.bookingPasses.find? (fun p => p.stripeSessionId == some s.sessionId) with
            | some p =>
              if p.memberId == none then
                let db4 := { db3 with bookingPasses :=
                  db3.bookingPasses.map (fun q =>
                    if q.id == p.id then { q with memberId := some g.memberId } else q) }
                ⟨markProcessed db4 id, 200,
                  g.trace ++ gr.2 ++ [.guestUpsert email, .passBackfill p.id] ++ [.markProcessed id]⟩
              else
                ⟨markProcessed db3 id, 200,
                  g.trace ++ gr.2 ++ [.guestUpsert email] ++ [.markProcessed id]⟩
            | none =>
              let newPass : BookingPass :=
                ⟨db3.nextId, some env.freshToken, none, email, some s.sessionId,
                  some (env.now + 2592000000), none, some g.memberId⟩
              let db4 := { db3 with
                bookingPasses := db3.bookingPasses ++ [newPass],
                nextId := db3.nextId + 1 }
              ⟨markProcessed db4 id, 200,
                g.trace ++ gr.2 ++
                  [.guestUpsert email, .passInsert email env.freshToken,
                    .emailSend email] ++ [.markProcessed id]⟩
    | .invoicePaid id inv =>
      match resolveInvoiceEmail env inv with
      | none => ⟨db, 500, []⟩
      | some email =>
        let credits := invoiceCredits inv
        if 0 < credits then
          let g := getOrCreateMemberByEmail db email none
          let reason := "Stripe invoice (" ++ inv.invoiceId ++ ")"
          let gr := grantCredits g.db g.memberId credits reason
          ⟨markProcessed gr.1 id, 200, g.trace ++ gr.2 ++ [.markProcessed id]⟩
        else ⟨markProcessed db id, 200, [.markProcessed id]⟩
    | .other id _ => ⟨markProcessed db id, 200, [.markProcessed id]⟩

/-! ## Trace properties and concrete inputs for the Stripe claims -/

/-- The ordering property claimed by the spec of an effect trace: the
dedup record is written before any mutating side effect. Every traced
action is either the dedup insert or a mutation, so this holds exactly when
the trace is empty or opens with `markProcessed`. -/
def dedupRecordedFirst (tr : List Effect) : Bool :=
  match tr with
  | [] => true
  | e :: _ => isMark e

/-- The ordering property the code actually has: the dedup record, when
present, is the final action of the trace (no mark before the last
position). -/
def markLast (tr : List Effect) : Bool :=
  tr.dropLast.all (fun e => !isMark e)

/-- Total granted credits of one member: the sum of that member's `grant`
ledger rows. -/
def grantsFor (db : DB) (memberId : Nat) : Int :=
  sumOfType (db.creditsLedger.filter (fun r => r.memberId == memberId)) "grant"

/-- A request environment with a valid signature. -/
def envA : StripeEnv := ⟨true, 0, "rawtok123", fun _ => none⟩

/-- A paid $45 one-time checkout session with a usable `credits` metadata
field. -/
def sessA : CheckoutSession :=
  ⟨"cs_A", "payment", some "paid", some "a@x.com", none, none, none,
    some 1, none, none, none, some 4500, none, []⟩

/-- A paid one-time checkout session with no usable credits metadata, no
mapped line item, no `guest_pass` purchase type, and an amount other than
4500 cents: no rule can compute a credit count. -/
def sessNoCredits : CheckoutSession :=
  ⟨"cs_X", "payment", some "paid", some "a@x.com", none, none, none,
    none, none, none, none, some 1000, none, [⟨some "price_unmapped", some 2⟩]⟩

/-- An existing unused, unexpired booking pass for `a@x.com`. -/
def passOld : BookingPass :=
  ⟨0, some "oldtok", none, "a@x.com", none, some 99999999999999, none, none⟩

/-- A database holding only `passOld`. -/
def db7 : DB := ⟨[], [], [], [passOld], [], [], [], [], 1⟩

/-! ## Booking-pass redemption edge function -/

/-- HTTP outcome of the `redeem-booking-pass` edge function. -/
inductive RedeemResult
  | missingToken
  | notFound
  | alreadyUsed
  | expired
  | redirect (email : String)
deriving DecidableEq, Repr

/-- Fetch of the pass row by the raw `token` column. -/
def fetchPass (db : DB) (tok : String) : Option BookingPass :=
  db.bookingPasses.find? (fun p => p.token == some tok)

/-- The decision phase of one redemption attempt: the HTTP outcome derived
from the fetched snapshot, plus the id of the pass to conditionally mark
used when the snapshot passed all checks. The response does not depend on
how many rows the later conditional update affects (only on a database
error, which the pure model cannot produce). `new Date(null).getTime()` is
`0`, so a missing `expires_at` compares as the epoch. -/
def attemptDecision (db : DB) (rawTok : String) (now : Int) :
    RedeemResult × Option Nat :=
  let tok := jsTrim rawTok
  if tok == "" then (.missingToken, none)
  else
    match fetchPass db tok with
    | none => (.notFound, none)
    | some p =>
      if p.usedAt.isSome then (.alreadyUsed, none)
      else if p.expiresAt.getD 0 ≤ now then (.expired, none)
      else (.redirect p.email, some p.id)

/-- The conditional update `SET used_at = now WHERE id = pid AND used_at IS
NULL` of the edge function. -/
def condMarkUsed (db : DB) (target : Option Nat) (now : Int) : DB :=
  match target with
  | none => db
  | some pid =>
    { db with bookingPasses := db.bookingPasses.map (fun q =>
        if q.id == pid && q.usedAt == none then { q with usedAt := some now } else q) }

/-- The sequential `redeem-booking-pass` edge function: decision from the
fetched row, then the conditional update, then the response. -/
def redeemPass (db : DB) (rawTok : String) (now : Int) : RedeemResult × DB :=
  let d := attemptDecision db rawTok now
  (d.1, condMarkUsed db d.2 now)

/-- Two concurrent redemption attempts interleaved as fetch-1, fetch-2,
update-1, update-2: both decisions read the pre-update state, as when two
requests race. -/
def redeemTwoInterleaved (db : DB) (tokA tokB : String) (t1 t2 : Int) :
    RedeemResult × RedeemResult × DB :=
  let d1 := attemptDecision db tokA t1
  let d2 := attemptDecision db tokB t2
  (d1.1, d2.1, condMarkUsed (condMarkUsed db d1.2 t1) d2.2 t2)

/-! ## Admin booking-pass mint routes -/

/-- The revoke step of the admin send route: `SET used_at = now WHERE email
= email AND used_at IS NULL`. -/
def revokeUnusedPassesForEmail (db : DB) (email : String) (now : Int) : DB :=
  { db with bookingPasses := db.bookingPasses.map (fun p =>
      if p.email == email && p.usedAt == none then { p with usedAt := some now } else p) }

/-- The first variant of the admin `booking-pass/send` route (after the
admin authorization checks): normalize the email, revoke all prior unused
passes for it, then insert a row storing only the token hash (no raw token,
no expiry, no session id). Returns the updated database and HTTP status. -/
def adminSendBookingPass (db : DB) (emailRaw : String) (memberId : Option Nat)
    (tok : String) (now : Int) : DB × Nat :=
  let email := jsTrim (jsToLower emailRaw)
  if email == "" then (db, 400)
  else
    let db1 := revokeUnusedPassesForEmail db email now
    ({ db1 with
        bookingPasses := db1.bookingPasses ++
          [⟨db1.nextId, none, some (sha256Hex tok), email, none, none, none, memberId⟩],
        nextId := db1.nextId + 1 }, 200)

/-- The second variant of the admin `booking-pass/send` route (after the
admin authorization checks): requires an existing member (case-insensitive
email match) whose `sendRouteBalance` is at least 1, then inserts a pass row
storing *both* the raw token and its hash, with a 30-day expiry — without
revoking prior passes. -/
def adminSendBookingPassV2 (db : DB) (emailRaw : String) (sid : Option String)
    (tok : String) (now : Int) : DB × Nat :=
  if jsTrim emailRaw == "" then (db, 400)
  else
    let email := jsToLower (jsTrim emailRaw)
    match db.members.find? (fun m => jsToLower m.email == email) with
    | none => (db, 400)
    | some m =>
      let balance := sendRouteBalance (db.creditsLedger.filter (fun r => r.memberId == m.id))
      if balance < 1 then (db, 400)
      else
        ({ db with
            bookingPasses := db.bookingPasses ++
              [⟨db.nextId, some tok, some (sha256Hex tok), email, sid,
                some (now + 2592000000), none, some m.id⟩],
            nextId := db.nextId + 1 }, 200)

/-! ## Calendly webhook handler -/

/-- The output of `parseCalendly` on an inbound body: the fields the handler
reads (the booking-pass token rides in `tracking.utm_content` or
`tracking.utm_term`). -/
structure ParsedCalendly where
  eventType : Option String
  inviteeEmail : Option String
  calendlyInviteeUri : Option String
  calendlyEventUri : Option String
  startTime : Option String
  endTime : Option String
  token : Option String
deriving DecidableEq, Repr

/-- JS truthiness of an optional string (null, undefined and "" are falsy). -/
def isT (o : Option String) : Bool :=
  match o with
  | some s => s != ""
  | none => false

/-- `isInsufficientCredits`: does the RPC error message contain
`INSUFFICIENT_CREDITS`? -/
def isInsufficientCredits (message : String) : Bool :=
  containsSub message "INSUFFICIENT_CREDITS"

/-- The redeeming-identity resolution of the Calendly route: default to the
invitee email; with a booking-pass token, when the pass is found, unused,
unexpired (a null `expires_at` is *not* treated as expired here) and has a
non-empty email, use the pass email lowercased and trimmed. -/
def resolveRedeemEmail (db : DB) (parsed : ParsedCalendly) (now : Int) : Option String :=
  match parsed.token with
  | none => parsed.inviteeEmail
  | some t =>
    match db.bookingPasses.find? (fun p => p.token == some t) with
    | none => parsed.inviteeEmail
    | some p =>
      if p.usedAt.isSome then parsed.inviteeEmail
      else if (match p.expiresAt with | some e => decide (e ≤ now) | none => false) then
        parsed.inviteeEmail
      else if p.email != "" then some (jsTrim (jsToLower p.email))
      else parsed.inviteeEmail

/-- Modelled from the spec: the `redeem_credit_for_calendly` database
function (not in the application sources). Keyed for idempotency on the
invitee URI: a duplicate delivery for an already-recorded booking is a
success no-op. Otherwise it resolves the member by normalized email, fails
with `INSUFFICIENT_CREDITS` when no member exists or the derived balance is
below one, and on success atomically inserts one `redeem` ledger row and an
rsvp row that records `invitee_email` as the redeeming email. -/
def redeem_credit_for_calendly (db : DB) (email eventUri inviteeUri startAt : String)
    (endAt : Option String) : Except String (DB × Nat) :=
  match db.rsvps.find? (fun r => r.calendlyInviteeUri == inviteeUri) with
  | some r => .ok (db, r.id)
  | none =>
    match db.members.find? (fun m => m.email == jsToLower (jsTrim email)) with
    | none => .error "INSUFFICIENT_CREDITS"
    | some m =>
      let bal := v_member_credit_balance
        (db.creditsLedger.filter (fun r => r.memberId == m.id))
      if bal < 1 then .error "INSUFFICIENT_CREDITS"
      else
        let rid := db.nextId
        .ok ({ db with
            creditsLedger := db.creditsLedger ++
              [⟨m.id, "redeem", some 1, "calendly " ++ inviteeUri⟩],
            rsvps := db.rsvps ++
              [⟨rid, inviteeUri, eventUri, email, none, startAt, endAt, m.id, false⟩],
            nextId := rid + 1 }, rid)

/-- Modelled from the spec: the `cancel_rsvp_for_calendly` database function
(not in the application sources) — the compensating refund keyed by the same
invitee URI; a URI with no recorded redemption fails (the route acknowledges
the error with 200), a repeated cancellation is a no-op. -/
def cancel_rsvp_for_calendly (db : DB) (inviteeUri : String) : Except String (DB × Nat) :=
  match db.rsvps.find? (fun r => r.calendlyInviteeUri == inviteeUri) with
  | none => .error "RSVP_NOT_FOUND"
  | some r =>
    if r.canceled then .ok (db, r.id)
    else
      .ok ({ db with
          creditsLedger := db.creditsLedger ++
            [⟨r.memberId, "refund", some 1, "calendly cancel " ++ inviteeUri⟩],
          rsvps := db.rsvps.map (fun x =>
            if x.id == r.id then { x with canceled := true } else x) }, r.id)

/-- The upsert into `calendly_booking_issues` with conflict target
`calendly_invitee_uri`: replace the payload columns of the matching row, or
insert a new row. -/
def upsertIssue (db : DB) (row : BookingIssue) : DB :=
  if db.bookingIssues.any (fun i => i.calendlyInviteeUri == row.calendlyInviteeUri) then
    { db with bookingIssues := db.bookingIssues.map (fun i =>
        if i.calendlyInviteeUri == row.calendlyInviteeUri then row else i) }
  else { db with bookingIssues := db.bookingIssues ++ [row] }

/-- `UPDATE rsvps SET invitee_name WHERE calendly_invitee_uri = uri`. -/
def setRsvpName (db : DB) (uri : String) (name : Option String) : DB :=
  { db with rsvps := db.rsvps.map (fun r =>
      if r.calendlyInviteeUri == uri then { r with inviteeName := name } else r) }

/-- `UPDATE rsvps SET invitee_email WHERE calendly_invitee_uri = uri`. -/
def setRsvpInviteeEmail (db : DB) (uri : String) (email : String) : DB :=
  { db with rsvps := db.rsvps.map (fun r =>
      if r.calendlyInviteeUri == uri then { r with inviteeEmail := email } else r) }

/-- `UPDATE booking_passes SET used_at = now WHERE token = t AND used_at IS
NULL` (the pass consumption of the Calendly success path). -/
def consumePassByToken (db : DB) (t : String) (now : Int) : DB :=
  { db with bookingPasses := db.bookingPasses.map (fun p =>
      if p.token == some t && p.usedAt == none then { p with usedAt := some now } else p) }

/-- Environment of one Calendly webhook request: time, current year, whether
the SignNow env vars are configured, and the document id SignNow returns for
a copied template. -/
structure CalendlyEnv where
  now : Int
  nowYear : Nat
  signnowConfigured : Bool
  docId : String
deriving DecidableEq, Repr

/-- The waiver upsert: conflict target `calendly_invitee_uri` when an
invitee URI exists, else `recipient_email, waiver_year`. -/
def upsertWaiver (db : DB) (row : Waiver) (byUri : Bool) : DB :=
  if byUri then
    if db.waivers.any (fun w => w.calendlyInviteeUri == row.calendlyInviteeUri) then
      { db with waivers := db.waivers.map (fun w =>
          if w.calendlyInviteeUri == row.calendlyInviteeUri then row else w) }
    else { db with waivers := db.waivers ++ [row] }
  else
    if db.waivers.any (fun w =>
        w.recipientEmail == row.recipientEmail && w.waiverYear == row.waiverYear) then
      { db with waivers := db.waivers.map (fun w =>
          if w.recipientEmail == row.recipientEmail && w.waiverYear == row.waiverYear
          then row else w) }
    else { db with waivers := db.waivers ++ [row] }

/-- The waiver-send block run after a successful redemption (all its errors
are swallowed by the route): look up the waiver by invitee URI (else
email + year), skip when already signed or already sent with a document id,
skip when SignNow is not configured; otherwise copy the template, send the
invite, and upsert the waiver row as `sent` with the returned document id
and a best-effort member link. -/
def waiverSendBlock (env : CalendlyEnv) (parsed : ParsedCalendly)
    (attendeeName : Option String) (db : DB) : DB :=
  let emailLower := jsTrim (jsToLower (parsed.inviteeEmail.getD ""))
  if emailLower == "" then db
  else
    let wUri := parsed.calendlyInviteeUri
    let existing : Option Waiver :=
      match wUri with
      | some u => db.waivers.find? (fun w => w.calendlyInviteeUri == some u)
      | none => db.waivers.find? (fun w =>
          w.recipientEmail == emailLower && w.waiverYear == env.nowYear)
    if (match existing with
        | some w => w.status == "signed" || w.signedAt.isSome
        | none => false) then db
    else if (match existing with
        | some w => w.status == "sent" && w.externalDocumentId.isSome
        | none => false) then db
    else if !env.signnowConfigured then db
    else
      let memberMatch := db.members.find? (fun m => m.email == emailLower)
      let recipientName :=
        match memberMatch with
        | some m =>
          let n := jsTrim ((m.firstName.getD "") ++ " " ++ (m.lastName.getD ""))
          if n == "" then none else some n
        | none => none
      upsertWaiver db
        ⟨wUri, emailLower, env.nowYear, "sent", some env.docId, some env.now, none,
          memberMatch.map (fun m => m.id), recipientName, attendeeName⟩
        wUri.isSome

/-- Outcome of one Calendly webhook request. -/
structure CalOut where
  db : DB
  status : Nat
deriving DecidableEq, Repr

/-- The `POST` handler of the Calendly webhook route (first variant), after
the token gate and body parse: resolve the redeeming identity (pass email
when a valid pass token is present, else invitee email), call the redemption
RPC keyed on the invitee URI; on an `INSUFFICIENT_CREDITS` error upsert a
booking issue keyed on the invitee URI with a best-effort member link and
still acknowledge 200; on success update the rsvp attendee name, consume the
pass, run the waiver-send block, and, when the redeeming email differs from
the invitee email, correct the rsvp row's `invitee_email` back to the
invitee. -/
def calendlyWebhookPOST (env : CalendlyEnv) (parsed : ParsedCalendly)
    (attendeeName : Option String) (db : DB) : CalOut :=
  let redeemEmail := resolveRedeemEmail db parsed env.now
  let guestEmail := parsed.inviteeEmail
  if parsed.eventType == some "invitee.created" then
    if !(isT parsed.inviteeEmail && isT parsed.calendlyEventUri
        && isT parsed.calendlyInviteeUri && isT parsed.startTime) then
      ⟨db, 200⟩
    else
      match redeem_credit_for_calendly db (redeemEmail.getD "")
          (parsed.calendlyEventUri.getD "") (parsed.calendlyInviteeUri.getD "")
          (parsed.startTime.getD "") parsed.endTime with
      | .error msg =>
        if isInsufficientCredits msg then
          let memberId := (db.members.find?
            (fun m => m.email == redeemEmail.getD "")).map (fun m => m.id)
          ⟨upsertIssue db
            ⟨parsed.calendlyInviteeUri.getD "", parsed.calendlyEventUri.getD "",
              parsed.inviteeEmail.getD "", memberId, parsed.startTime, parsed.endTime,
              "INSUFFICIENT_CREDITS", msg⟩, 200⟩
        else ⟨db, 200⟩
      | .ok (db1, _) =>
        let db2 := if isT parsed.calendlyInviteeUri then
            setRsvpName db1 (parsed.calendlyInviteeUri.getD "") attendeeName
          else db1
        let db3 := match parsed.token with
          | some t => consumePassByToken db2 t env.now
          | none => db2
        let db4 := waiverSendBlock env parsed attendeeName db3
        let db5 := if isT parsed.calendlyInviteeUri && isT guestEmail && isT redeemEmail
              && guestEmail != redeemEmail then
            setRsvpInviteeEmail db4 (parsed.calendlyInviteeUri.getD "") (guestEmail.getD "")
          else db4
        ⟨db5, 200⟩
  else if parsed.eventType == some "invitee.canceled" then
    if !(isT parsed.calendlyInviteeUri) then ⟨db, 200⟩
    else
      match cancel_rsvp_for_calendly db (parsed.calendlyInviteeUri.getD "") with
      | .error _ => ⟨db, 200⟩
      | .ok (db1, _) => ⟨db1, 200⟩
  else ⟨db, 200⟩

/-! ## SignNow completion detectors -/

/-- A signer/recipient record in a SignNow document response. -/
structure SignerRec where
  signed : Option Bool
  status : Option String
  signing_status : Option String
deriving DecidableEq, Repr

/-- A SignNow document response, restricted to the fields the two detectors
probe; `data_*` fields stand for the nested `data.*` paths. The
`field_invites` and `signatures` arrays carry each item's `status` string. -/
structure SnDoc where
  status : Option String := none
  document_status : Option String := none
  signing_status : Option String := none
  state : Option String := none
  data_status : Option String := none
  is_completed : Option Bool := none
  completed : Option Bool := none
  data_is_completed : Option Bool := none
  data_completed : Option Bool := none
  field_invites : Option (List (Option String)) := none
  signatures : Option (List (Option String)) := none
  signers : Option (List SignerRec) := none
  recipients : Option (List SignerRec) := none
  data_signers : Option (List SignerRec) := none
  data_recipients : Option (List SignerRec) := none
deriving DecidableEq, Repr

/-- `looksSigned` from the `waiver-sync-signed` edge function: top-level
`status`/`document_status`/`signing_status` equal (not merely containing)
"completed"/"signed"; then the `is_completed` flag; then all field-invite
statuses fulfilled/completed/signed; then any signature status done. -/
def looksSigned (doc : SnDoc) : Bool :=
  let status := jsToLower (doc.status.getD "")
  let documentStatus := jsToLower (doc.document_status.getD "")
  let signingStatus := jsToLower (doc.signing_status.getD "")
  if status == "completed" || status == "signed" then true
  else if documentStatus == "completed" || documentStatus == "signed" then true
  else if signingStatus == "completed" || signingStatus == "signed" then true
  else if doc.is_completed == some true then true
  else if (match doc.field_invites with
      | some l => !l.isEmpty && l.all (fun i =>
          ["fulfilled", "completed", "signed"].contains (jsToLower (i.getD "")))
      | none => false) then true
  else if (match doc.signatures with
      | some l => !l.isEmpty && l.any (fun s =>
          ["fulfilled", "completed", "signed"].contains (jsToLower (s.getD "")))
      | none => false) then true
  else false

/-- `looksCompleted` from the admin waiver check route: the first present of
`status`/`document_status`/`state`/`data.status` containing
"completed"/"signed"/"fulfilled" (or equal to "complete"); then the boolean
completion flags; then the first present signer/recipient array with every
record signed. -/
def looksCompleted (doc : SnDoc) : Bool :=
  let status :=
    jsToLower ((doc.status <|> doc.document_status <|> doc.state <|> doc.data_status).getD "")
  if containsSub status "completed" || containsSub status "signed"
      || containsSub status "fulfilled" || status == "complete" then true
  else if doc.is_completed == some true || doc.completed == some true then true
  else if doc.data_is_completed == some true || doc.data_completed == some true then true
  else
    match doc.signers <|> doc.data_signers <|> doc.recipients <|> doc.data_recipients with
    | some l => !l.isEmpty && l.all (fun s =>
        let sStatus := jsToLower ((s.status <|> s.signing_status).getD "")
        s.signed == some true || containsSub sStatus "signed"
          || containsSub sStatus "completed")
    | none => false

/-- Modelled from the spec: the canonical tiered completion detector the
specification describes — apply extraction strategies in priority order,
stopping at the first match: explicit field/invite fulfillment status, then
boolean completion flags, then per-signer/recipient status arrays, then last
the top-level document status string containing
"completed"/"signed"/"fulfilled". -/
def specTieredCompleted (doc : SnDoc) : Bool :=
  if (match doc.field_invites with
      | some l => !l.isEmpty && l.all (fun i =>
          ["fulfilled", "completed", "signed"].contains (jsToLower (i.getD "")))
      | none => false) then true
  else if doc.is_completed == some true || doc.completed == some true then true
  else if (match doc.signers <|> doc.recipients with
      | some l => !l.isEmpty && l.all (fun s =>
          let sStatus := jsToLower ((s.status <|> s.signing_status).getD "")
          s.signed == some true || containsSub sStatus "signed"
            || containsSub sStatus "completed")
      | none => false) then true
  else if containsSub (jsToLower (doc.status.getD "")) "completed"
      || containsSub (jsToLower (doc.status.getD "")) "signed"
      || containsSub (jsToLower (doc.status.getD "")) "fulfilled" then true
  else false

/-- The poll detector's top-level status-equality signal. -/
def snTopStatusSignal (doc : SnDoc) : Bool :=
  jsToLower (doc.status.getD "") == "completed" || jsToLower (doc.status.getD "") == "signed"
    || jsToLower (doc.document_status.getD "") == "completed"
    || jsToLower (doc.document_status.getD "") == "signed"
    || jsToLower (doc.signing_status.getD "") == "completed"
    || jsToLower (doc.signing_status.getD "") == "signed"

/-- The poll detector's boolean-flag signal. -/
def snFlagSignal (doc : SnDoc) : Bool :=
  doc.is_completed == some true

/-- The poll detector's field-invites signal. -/
def snInvitesSignal (doc : SnDoc) : Bool :=
  match doc.field_invites with
  | some l => !l.isEmpty && l.all (fun i =>
      ["fulfilled", "completed", "signed"].contains (jsToLower (i.getD "")))
  | none => false

/-- The poll detector's signatures signal. -/
def snSignaturesSignal (doc : SnDoc) : Bool :=
  match doc.signatures with
  | some l => !l.isEmpty && l.any (fun s =>
      ["fulfilled", "completed", "signed"].contains (jsToLower (s.getD "")))
  | none => false

/-- The operator check's top-level contains-based status signal. -/
def opStatusSignal (doc : SnDoc) : Bool :=
  let status :=
    jsToLower ((doc.status <|> doc.document_status <|> doc.state <|> doc.data_status).getD "")
  containsSub status "completed" || containsSub status "signed"
    || containsSub status "fulfilled" || status == "complete"

/-- The operator check's boolean-flag signal. -/
def opFlagSignal (doc : SnDoc) : Bool :=
  doc.is_completed == some true || doc.completed == some true
    || doc.data_is_completed == some true || doc.data_completed == some true

/-- The operator check's signer/recipient-array signal. -/
def opSignersSignal (doc : SnDoc) : Bool :=
  match doc.signers <|> doc.data_signers <|> doc.recipients <|> doc.data_recipients with
  | some l => !l.isEmpty && l.all (fun s =>
      let sStatus := jsToLower ((s.status <|> s.signing_status).getD "")
      s.signed == some true || containsSub sStatus "signed"
        || containsSub sStatus "completed")
  | none => false


/-- Masks used to compare pass rows: soft-revocation state and stored
token material. -/
def passMask (p : BookingPass) : String × Option Int := (p.email, p.usedAt)

def tokMask (p : BookingPass) : Option String × Option Sha256Hex := (p.token, p.tokenHash)

def rsvpMask (r : Rsvp) : String × String := (r.calendlyInviteeUri, r.inviteeEmail)

/-- An unused booking pass with raw token "t" for `buyer@x.com`, expiring at
time 100. -/
def passT : BookingPass := ⟨0, some "t", none, "buyer@x.com", none, some 100, none, none⟩

/-- `passT` after consumption at time 1. -/
def passTUsed : BookingPass := ⟨0, some "t", none, "buyer@x.com", none, some 100, some 1, none⟩

/-- A database holding only `passT`. -/
def db6 : DB := ⟨[], [], [], [passT], [], [], [], [], 1⟩

/-- A database holding only `passTUsed`. -/
def db6used : DB := ⟨[], [], [], [passTUsed], [], [], [], [], 1⟩


/-- A member with two granted credits, for exercising the second admin mint
variant. -/
def memB : Member := ⟨3, "buyer@x.com", some "Bo", none, none⟩

/-- A database holding `memB` and one 2-credit grant. -/
def db8 : DB := ⟨[], [memB], [⟨3, "grant", some 2, "seed"⟩], [], [], [], [], [], 4⟩


/-- Concrete fixtures for the Calendly claims: a member owning one credit,
a live pass bound to that member with a mixed-case stored email, and an
`invitee.created` event whose invitee differs from the purchaser. -/
def memC4 : Member := ⟨0, "buyer@x.com", none, none, none⟩

def passC4 : BookingPass := ⟨1, some "tkn", none, "Buyer@X.com", none, some 1000, none, some 0⟩

def dbC4 : DB := ⟨[], [memC4], [⟨0, "grant", some 1, "seed"⟩], [passC4], [], [], [], [], 5⟩

def parsedC4 : ParsedCalendly :=
  ⟨some "invitee.created", some "guest@y.com", some "inv_1", some "ev_1",
    some "2026-01-01", none, some "tkn"⟩

/-- An `invitee.created` event without a pass token, for the
insufficient-credits path. -/
def parsedC5 : ParsedCalendly :=
  ⟨some "invitee.created", some "guest@y.com", some "inv_2", some "ev_2",
    some "2026-01-02", none, none⟩

def envC4 : CalendlyEnv := ⟨0, 2026, false, "doc_1"⟩


/-! # Theorems -/

/-! ## C1: derived credit balance -/

theorem sendRouteBalance_foldl_shift (rows : List LedgerEntry) (b : Int) :
    rows.foldl
      (fun b r =>
        if r.entryType == "grant" || r.entryType == "refund" then b + r.quantity.getD 0
        else if r.entryType == "redeem" then b - r.quantity.getD 0
        else b)
      b = b + v_member_credit_balance rows := by
  induction rows generalizing b with
  | nil => simp [v_member_credit_balance]
  | cons r rs ih =>
    simp only [List.foldl_cons, v_member_credit_balance, List.map_cons, List.sum_cons] at *
    rw [ih]
    split
    · ring
    · split <;> ring

theorem sum_filter_eq_sum_ite (p : LedgerEntry → Bool) (f : LedgerEntry → Int)
    (l : List LedgerEntry) :
    ((l.filter p).map f).sum = (l.map (fun x => if p x then f x else 0)).sum := by
  induction l with
  | nil => simp
  | cons x xs ih => by_cases h : p x <;> simp [List.filter_cons, h, ih]

theorem sumOfType_eq_map (rows : List LedgerEntry) (t : String) :
    sumOfType rows t =
      (rows.map (fun r => if r.entryType == t then r.quantity.getD 0 else 0)).sum :=
  sum_filter_eq_sum_ite _ _ rows

theorem entryDelta_split (r : LedgerEntry) :
    (if r.entryType == "grant" || r.entryType == "refund" then r.quantity.getD 0
      else if r.entryType == "redeem" then -(r.quantity.getD 0) else 0)
    = (if r.entryType == "grant" then r.quantity.getD 0 else 0)
      + (if r.entryType == "refund" then r.quantity.getD 0 else 0)
      - (if r.entryType == "redeem" then r.quantity.getD 0 else 0) := by
  by_cases h1 : r.entryType = "grant" <;> by_cases h2 : r.entryType = "refund" <;>
    by_cases h3 : r.entryType = "redeem" <;> simp_all

theorem v_member_credit_balance_eq_sums (rows : List LedgerEntry) :
    v_member_credit_balance rows =
      sumOfType rows "grant" + sumOfType rows "refund" - sumOfType rows "redeem" := by
  rw [sumOfType_eq_map, sumOfType_eq_map, sumOfType_eq_map]
  induction rows with
  | nil => simp [v_member_credit_balance]
  | cons r rs ih =>
    simp only [v_member_credit_balance, List.map_cons, List.sum_cons] at *
    rw [ih, entryDelta_split]
    ring

/-- C1: for every list of a member's ledger rows, the balance the admin
booking-pass send route computes just before sending a pass, and the balance
reported by the (spec-modelled) `v_member_credit_balance` view, both equal
the signed sum `sum(grant) + sum(refund) - sum(redeem)` over those rows. -/
theorem c1_balance_is_signed_sum (rows : List LedgerEntry) :
    sendRouteBalance rows
        = sumOfType rows "grant" + sumOfType rows "refund" - sumOfType rows "redeem"
      ∧ v_member_credit_balance rows
        = sumOfType rows "grant" + sumOfType rows "refund" - sumOfType rows "redeem" := by
  refine ⟨?_, v_member_credit_balance_eq_sums rows⟩
  have h := sendRouteBalance_foldl_shift rows 0
  simp only [zero_add] at h
  rw [show sendRouteBalance rows = v_member_credit_balance rows from h,
    v_member_credit_balance_eq_sums]

/-! ## Stripe handler: helper lemmas -/

theorem gocm_stripeEvents (db : DB) (email : String) (phone : Option String) :
    (getOrCreateMemberByEmail db email phone).db.stripeEvents = db.stripeEvents := by
  unfold getOrCreateMemberByEmail
  dsimp only
  split <;> (try split) <;> rfl

theorem gocm_trace_nonmark (db : DB) (email : String) (phone : Option String) :
    (getOrCreateMemberByEmail db email phone).trace.all (fun e => !isMark e) = true := by
  unfold getOrCreateMemberByEmail
  dsimp only
  split <;> (try split) <;> simp [isMark]

theorem grantCredits_stripeEvents (db : DB) (m : Nat) (q : Int) (r : String) :
    (grantCredits db m q r).1.stripeEvents = db.stripeEvents := by
  unfold grantCredits
  split <;> rfl

theorem grantCredits_trace_nonmark (db : DB) (m : Nat) (q : Int) (r : String) :
    ((grantCredits db m q r).2).all (fun e => !isMark e) = true := by
  unfold grantCredits
  split <;> simp [isMark]

theorem grantStep_stripeEvents (db : DB) (m : Nat) (ag : Bool) (q : Int) (r : String) :
    (grantStep db m ag q r).1.stripeEvents = db.stripeEvents := by
  unfold grantStep
  split <;> simp [grantCredits_stripeEvents]

theorem grantStep_trace_nonmark (db : DB) (m : Nat) (ag : Bool) (q : Int) (r : String) :
    ((grantStep db m ag q r).2).all (fun e => !isMark e) = true := by
  unfold grantStep
  split <;> simp [grantCredits_trace_nonmark]

theorem guestProfilesUpsert_stripeEvents (db : DB) (e : String) :
    (guestProfilesUpsert db e).stripeEvents = db.stripeEvents := by
  unfold guestProfilesUpsert
  dsimp only
  split <;> rfl

theorem dropLast_append_single (l : List Effect) (a : Effect) :
    (l ++ [a]).dropLast = l := by
  simp

theorem markLast_append_mark (pre : List Effect) (i : String)
    (h : pre.all (fun e => !isMark e) = true) :
    markLast (pre ++ [Effect.markProcessed i]) = true := by
  simpa [markLast, dropLast_append_single] using h
theorem stripe_markLast (env : StripeEnv) (ev : StripeEvent) (db : DB) :
    markLast (stripeWebhookPOST env ev db).trace = true := by
  unfold stripeWebhookPOST
  dsimp only
  split
  · simp [markLast]
  · split
    · simp [markLast]
    · split
      · -- checkout.session.completed
        split
        · simp [markLast, isMark]
        · split
          · simp [markLast, isMark]
          · split
            · simp [markLast]
            · split
              · simp [markLast]
              · split
                · split
                  · apply markLast_append_mark
                    simp only [List.all_append, Bool.and_eq_true]
                    refine ⟨⟨gocm_trace_nonmark _ _ _, grantStep_trace_nonmark _ _ _ _ _⟩, ?_⟩
                    simp [isMark]
                  · apply markLast_append_mark
                    simp only [List.all_append, Bool.and_eq_true]
                    refine ⟨⟨gocm_trace_nonmark _ _ _, grantStep_trace_nonmark _ _ _ _ _⟩, ?_⟩
                    simp [isMark]
                · apply markLast_append_mark
                  simp only [List.all_append, Bool.and_eq_true]
                  refine ⟨⟨gocm_trace_nonmark _ _ _, grantStep_trace_nonmark _ _ _ _ _⟩, ?_⟩
                  simp [isMark]
      · -- invoice.payment_succeeded
        split
        · simp [markLast]
        · split
          · apply markLast_append_mark
            simp only [List.all_append, Bool.and_eq_true]
            exact ⟨gocm_trace_nonmark _ _ _, grantCredits_trace_nonmark _ _ _ _⟩
          · simp [markLast, isMark]
      · simp [markLast, isMark]

theorem stripeWebhookPOST_cases (env : StripeEnv) (ev : StripeEvent) (db : DB) :
    (stripeWebhookPOST env ev db = ⟨db, 400, []⟩)
    ∨ (stripeWebhookPOST env ev db = ⟨db, 200, []⟩ ∧ alreadyProcessed db ev.eid = true)
    ∨ (stripeWebhookPOST env ev db = ⟨db, 500, []⟩)
    ∨ (∃ dbx tr, stripeWebhookPOST env ev db = ⟨markProcessed dbx ev.eid, 200, tr⟩
        ∧ dbx.stripeEvents = db.stripeEvents) := by
  unfold stripeWebhookPOST
  dsimp only
  split
  · exact Or.inl rfl
  · split
    · rename_i h2
      exact Or.inr (Or.inl ⟨rfl, h2⟩)
    · split
      · -- checkout.session.completed
        rename_i id s
        split
        · exact Or.inr (Or.inr (Or.inr ⟨db, _, rfl, rfl⟩))
        · split
          · exact Or.inr (Or.inr (Or.inr ⟨db, _, rfl, rfl⟩))
          · split
            · exact Or.inr (Or.inr (Or.inl rfl))
            · split
              · exact Or.inr (Or.inr (Or.inl rfl))
              · split
                · split
                  · refine Or.inr (Or.inr (Or.inr ⟨_, _, rfl, ?_⟩))
                    simp [guestProfilesUpsert_stripeEvents, grantStep_stripeEvents,
                      gocm_stripeEvents]
                  · refine Or.inr (Or.inr (Or.inr ⟨_, _, rfl, ?_⟩))
                    simp [guestProfilesUpsert_stripeEvents, grantStep_stripeEvents,
                      gocm_stripeEvents]
                · refine Or.inr (Or.inr (Or.inr ⟨_, _, rfl, ?_⟩))
                  simp [guestProfilesUpsert_stripeEvents, grantStep_stripeEvents,
                    gocm_stripeEvents]
      · -- invoice.payment_succeeded
        split
        · exact Or.inr (Or.inr (Or.inl rfl))
        · split
          · refine Or.inr (Or.inr (Or.inr ⟨_, _, rfl, ?_⟩))
            simp [grantCredits_stripeEvents, gocm_stripeEvents]
          · exact Or.inr (Or.inr (Or.inr ⟨db, _, rfl, rfl⟩))
      · exact Or.inr (Or.inr (Or.inr ⟨db, _, rfl, rfl⟩))

theorem stripe_replay_noop (env : StripeEnv) (ev : StripeEvent) (db : DB)
    (hp : alreadyProcessed db ev.eid = true) :
    (stripeWebhookPOST env ev db).db = db := by
  unfold stripeWebhookPOST
  dsimp only
  split
  · rfl
  · simp [hp]

theorem stripe_status200_processed (env : StripeEnv) (ev : StripeEvent) (db : DB)
    (h : (stripeWebhookPOST env ev db).status = 200) :
    alreadyProcessed (stripeWebhookPOST env ev db).db ev.eid = true := by
  rcases stripeWebhookPOST_cases env ev db with hc | ⟨hc, hp⟩ | hc | ⟨dbx, tr, hc, hse⟩
  · rw [hc] at h
    simp at h
  · rw [hc]
    exact hp
  · rw [hc] at h
    simp at h
  · rw [hc]
    simp [alreadyProcessed, markProcessed]

/-! ## C2: dedup record vs. side-effect ordering -/

/-- C2 (counterexample): for a concrete paid checkout event on an empty
database, the handler's effect trace opens with the member-creation
mutation, not with the `stripe_events` dedup record — so the dedup claim is
not durably recorded before the mutating side effects. -/
theorem c2_counterexample :
    dedupRecordedFirst
      (stripeWebhookPOST envA (.checkoutCompleted "evt_1" sessA) DB.empty).trace = false := by
  decide

/-- C2 (amended): the Stripe webhook handler checks the dedup table before
any side effect and skips all processing when the event id is already
recorded, but it durably records the event id only *after* completing all
mutating side effects: in every reachable trace, the dedup record is the
final action. A crash after the side effects but before the record leaves
the event unrecorded and hence retryable (at-least-once, not at-most-once);
replay protection for the grant comes from the separate
`creditGrantExistsForSession` check. -/
theorem c2_amended_dedup_recorded_last (env : StripeEnv) (ev : StripeEvent) (db : DB) :
    markLast (stripeWebhookPOST env ev db).trace = true
    ∧ (env.sigOk = true → alreadyProcessed db ev.eid = true →
        (stripeWebhookPOST env ev db).db = db
        ∧ (stripeWebhookPOST env ev db).trace = []) := by
  refine ⟨stripe_markLast env ev db, fun h1 h2 => ?_⟩
  unfold stripeWebhookPOST
  dsimp only
  simp [h1, h2]

/-- Witness for `c2_amended_dedup_recorded_last` at a concrete
already-processed event. -/
theorem c2_amended_dedup_recorded_last_witness :
    markLast (stripeWebhookPOST envA (.other "evt_0" "noop")
      (markProcessed DB.empty "evt_0")).trace = true
    ∧ (stripeWebhookPOST envA (.other "evt_0" "noop")
        (markProcessed DB.empty "evt_0")).db = markProcessed DB.empty "evt_0"
    ∧ (stripeWebhookPOST envA (.other "evt_0" "noop")
        (markProcessed DB.empty "evt_0")).trace = [] := by
  have h := c2_amended_dedup_recorded_last envA (.other "evt_0" "noop")
    (markProcessed DB.empty "evt_0")
  have h2 := h.2 (by decide) (by decide)
  exact ⟨h.1, h2.1, h2.2⟩

/-! ## C3: checkout replay grants once -/

/-- C3: replaying the same `checkout.session.completed` event sequentially
after a completed (HTTP 200) first delivery is a no-op: the database is
unchanged, and in particular every member's granted credits after the two
deliveries equal the granted credits after the first one. -/
theorem c3_checkout_replay_grants_once (env1 env2 : StripeEnv) (id : String)
    (s : CheckoutSession) (db : DB) (m : Nat)
    (h : (stripeWebhookPOST env1 (.checkoutCompleted id s) db).status = 200) :
    (stripeWebhookPOST env2 (.checkoutCompleted id s)
        (stripeWebhookPOST env1 (.checkoutCompleted id s) db).db).db
      = (stripeWebhookPOST env1 (.checkoutCompleted id s) db).db
    ∧ grantsFor (stripeWebhookPOST env2 (.checkoutCompleted id s)
        (stripeWebhookPOST env1 (.checkoutCompleted id s) db).db).db m
      = grantsFor (stripeWebhookPOST env1 (.checkoutCompleted id s) db).db m := by
  have hp := stripe_status200_processed env1 (.checkoutCompleted id s) db h
  have hno := stripe_replay_noop env2 (.checkoutCompleted id s) _ hp
  exact ⟨hno, by rw [hno]⟩

/-- Witness for `c3_checkout_replay_grants_once` on a concrete paid
checkout session. -/
theorem c3_checkout_replay_grants_once_witness :
    (stripeWebhookPOST envA (.checkoutCompleted "evt_1" sessA) DB.empty).status = 200
    ∧ (stripeWebhookPOST envA (.checkoutCompleted "evt_1" sessA)
        (stripeWebhookPOST envA (.checkoutCompleted "evt_1" sessA) DB.empty).db).db
      = (stripeWebhookPOST envA (.checkoutCompleted "evt_1" sessA) DB.empty).db :=
  ⟨by decide,
    (c3_checkout_replay_grants_once envA envA "evt_1" sessA DB.empty 0 (by decide)).1⟩

/-! ## C10: uncomputable credits leave the event retryable -/

/-- C10: when a paid, non-subscription checkout event resolves an email but
no rule can compute a positive credit count, the handler returns HTTP 500,
performs no mutation (database unchanged, empty effect trace) and does not
record the event id — leaving the delivery retryable. -/
theorem c10_uncomputable_credits_no_mutation (env : StripeEnv) (id : String)
    (s : CheckoutSession) (db : DB) (em : String)
    (hs : env.sigOk = true)
    (hp : alreadyProcessed db id = false)
    (hm : (s.mode == "subscription") = false)
    (hnp : notPaidGuard s = false)
    (he : resolveCheckoutEmail s = some em)
    (hc : computeCheckoutCredits s ≤ 0) :
    stripeWebhookPOST env (.checkoutCompleted id s) db = ⟨db, 500, []⟩ := by
  unfold stripeWebhookPOST
  dsimp only [StripeEvent.eid]
  simp [hs, hp, hm, hnp, he, hc]

/-- Witness for `c10_uncomputable_credits_no_mutation` on a concrete paid
session with an unmapped price, no credits metadata and a non-4500 amount. -/
theorem c10_uncomputable_credits_no_mutation_witness :
    stripeWebhookPOST envA (.checkoutCompleted "evt_x" sessNoCredits) DB.empty
      = ⟨DB.empty, 500, []⟩ :=
  c10_uncomputable_credits_no_mutation envA "evt_x" sessNoCredits DB.empty "a@x.com"
    (by decide) (by decide) (by decide) (by decide) (by decide) (by decide)

/-! ## C7 / C8 counterexamples on the Stripe mint path -/

/-- C7 (counterexample): the Stripe checkout mint path does not invalidate
prior unused passes. Starting from a database holding one unused, unexpired
pass for `a@x.com`, handling a paid checkout for the same email leaves two
unused, unexpired passes for that email. -/
theorem c7_counterexample :
    ((stripeWebhookPOST envA (.checkoutCompleted "evt_7" sessA) db7).db.bookingPasses.filter
        (fun p => p.email == "a@x.com" && p.usedAt == none
          && decide (envA.now < p.expiresAt.getD 0))).length = 2 := by
  decide

/-- C8 (counterexample): the Stripe checkout mint path persists the raw
token. On an empty database, the single pass row minted by a paid checkout
stores the raw random token in the `token` column and no hash at all. -/
theorem c8_counterexample :
    (stripeWebhookPOST envA (.checkoutCompleted "evt_8" sessA) DB.empty).db.bookingPasses.map
        (fun p => (p.token, p.tokenHash)) = [(some "rawtok123", none)] := by
  decide

/-! ## C6: booking-pass redemption -/

theorem condMark_list_twice (l : List BookingPass) (i : Nat) (t1 t2 : Int) :
    ((l.map (fun q => if q.id == i && q.usedAt == none
        then { q with usedAt := some t1 } else q)).map
      (fun q => if q.id == i && q.usedAt == none
        then { q with usedAt := some t2 } else q))
    = l.map (fun q => if q.id == i && q.usedAt == none
        then { q with usedAt := some t1 } else q) := by
  induction l with
  | nil => rfl
  | cons a l ih =>
    simp only [List.map_cons, ih]
    by_cases h : (a.id == i && a.usedAt == none) = true
    · simp [h]
    · simp [h]

theorem condMarkUsed_twice (db : DB) (i : Nat) (t1 t2 : Int) :
    condMarkUsed (condMarkUsed db (some i) t1) (some i) t2
      = condMarkUsed db (some i) t1 := by
  unfold condMarkUsed
  dsimp only
  rw [condMark_list_twice]

theorem attemptDecision_success (db : DB) (tok : String) (now : Int) (p : BookingPass)
    (hts : (jsTrim tok == "") = false)
    (hf : fetchPass db (jsTrim tok) = some p)
    (hu : p.usedAt = none)
    (he : ¬(p.expiresAt.getD 0 ≤ now)) :
    attemptDecision db tok now = (.redirect p.email, some p.id) := by
  unfold attemptDecision
  simp [hts, hf, hu, he]

/-- C6 (counterexample): two concurrent redemptions of the same unused,
unexpired token (both fetch before either update) *both* respond with the
success redirect: the conditional update that matches zero rows is not
reported as `AlreadyUsed`, so it is not the case that exactly one succeeds. -/
theorem c6_counterexample :
    (redeemTwoInterleaved db6 "t" "t" 5 6).1 = RedeemResult.redirect "buyer@x.com"
    ∧ (redeemTwoInterleaved db6 "t" "t" 5 6).2.1 = RedeemResult.redirect "buyer@x.com" := by
  decide

/-- C6 (amended): redemption fails with `NotFound` for an unknown token,
`AlreadyUsed` when `used_at` is set, and `Expired` when `expires_at` (a
missing one counting as the epoch) is at or before now; on success it
responds with the redirect and applies the conditional update requiring
`used_at` to still be null. The affected-row count of that update is not
checked: a second conditional update on the same pass is a no-op on the
data, and of two concurrent redemptions of the same unused token both
receive the success redirect while `used_at` is written exactly once (by
the first update). -/
theorem c6_amended_redemption :
    (∀ db tok now, (jsTrim tok == "") = false → fetchPass db (jsTrim tok) = none →
      (redeemPass db tok now).1 = RedeemResult.notFound)
    ∧ (∀ db tok now p, (jsTrim tok == "") = false → fetchPass db (jsTrim tok) = some p →
        p.usedAt.isSome = true → (redeemPass db tok now).1 = RedeemResult.alreadyUsed)
    ∧ (∀ db tok now p, (jsTrim tok == "") = false → fetchPass db (jsTrim tok) = some p →
        p.usedAt = none → p.expiresAt.getD 0 ≤ now →
        (redeemPass db tok now).1 = RedeemResult.expired)
    ∧ (∀ db tok now p, (jsTrim tok == "") = false → fetchPass db (jsTrim tok) = some p →
        p.usedAt = none → ¬(p.expiresAt.getD 0 ≤ now) →
        (redeemPass db tok now).1 = RedeemResult.redirect p.email
          ∧ (redeemPass db tok now).2 = condMarkUsed db (some p.id) now)
    ∧ (∀ db i t1 t2, condMarkUsed (condMarkUsed db (some i) t1) (some i) t2
        = condMarkUsed db (some i) t1)
    ∧ (∀ db tok t1 t2 p, (jsTrim tok == "") = false → fetchPass db (jsTrim tok) = some p →
        p.usedAt = none → ¬(p.expiresAt.getD 0 ≤ t1) → ¬(p.expiresAt.getD 0 ≤ t2) →
        redeemTwoInterleaved db tok tok t1 t2
          = (RedeemResult.redirect p.email, RedeemResult.redirect p.email,
              condMarkUsed db (some p.id) t1)) := by
  refine ⟨?_, ?_, ?_, ?_, condMarkUsed_twice, ?_⟩
  · intro db tok now hts hf
    unfold redeemPass attemptDecision
    simp [hts, hf]
  · intro db tok now p hts hf hu
    unfold redeemPass attemptDecision
    simp [hts, hf, hu]
  · intro db tok now p hts hf hu he
    unfold redeemPass attemptDecision
    simp [hts, hf, hu, he]
  · intro db tok now p hts hf hu he
    unfold redeemPass
    rw [attemptDecision_success db tok now p hts hf hu he]
    exact ⟨rfl, rfl⟩
  · intro db tok t1 t2 p hts hf hu he1 he2
    unfold redeemTwoInterleaved
    rw [attemptDecision_success db tok t1 p hts hf hu he1,
      attemptDecision_success db tok t2 p hts hf hu he2]
    dsimp only
    rw [condMarkUsed_twice]

/-- Witness for `c6_amended_redemption` on concrete passes. -/
theorem c6_amended_redemption_witness :
    (redeemPass db6 "nope" 5).1 = RedeemResult.notFound
    ∧ (redeemPass db6used "t" 5).1 = RedeemResult.alreadyUsed
    ∧ (redeemPass db6 "t" 100).1 = RedeemResult.expired
    ∧ (redeemPass db6 "t" 5).1 = RedeemResult.redirect "buyer@x.com"
    ∧ condMarkUsed (condMarkUsed db6 (some 0) 5) (some 0) 6 = condMarkUsed db6 (some 0) 5
    ∧ redeemTwoInterleaved db6 "t" "t" 5 6
        = (RedeemResult.redirect "buyer@x.com", RedeemResult.redirect "buyer@x.com",
            condMarkUsed db6 (some 0) 5) := by
  refine ⟨c6_amended_redemption.1 db6 "nope" 5 (by decide) (by decide),
    c6_amended_redemption.2.1 db6used "t" 5 passTUsed (by decide) (by decide) (by decide),
    c6_amended_redemption.2.2.1 db6 "t" 100 passT (by decide) (by decide) (by decide)
      (by decide),
    ?_,
    c6_amended_redemption.2.2.2.2.1 db6 0 5 6,
    c6_amended_redemption.2.2.2.2.2 db6 "t" 5 6 passT (by decide) (by decide) (by decide)
      (by decide) (by decide)⟩
  have h := c6_amended_redemption.2.2.2.1 db6 "t" 5 passT (by decide) (by decide)
    (by decide) (by decide)
  exact h.1

/-! ## C7 / C8: mint-path invariants -/

theorem revoke_kills_live (l : List BookingPass) (email : String) (now : Int) :
    ((l.map (fun p => if p.email == email && p.usedAt == none
        then { p with usedAt := some now } else p)).filter
      (fun p => p.email == email && p.usedAt == none)) = [] := by
  rw [List.filter_eq_nil_iff]
  intro x hx
  rcases List.mem_map.mp hx with ⟨a, ha, rfl⟩
  by_cases h : (a.email == email && a.usedAt == none) = true
  · simp [h]
  · simp [h]

theorem map_tokMask_revoke (l : List BookingPass) (email : String) (now : Int) :
    ((l.map (fun p => if p.email == email && p.usedAt == none
        then { p with usedAt := some now } else p)).map tokMask) = l.map tokMask := by
  induction l with
  | nil => rfl
  | cons a l ih =>
    simp only [List.map_cons, ih]
    by_cases h : (a.email == email && a.usedAt == none) = true
    · simp [h, tokMask]
    · simp [h]

theorem map_passMask_backfill (l : List BookingPass) (pid : Nat) (mid : Nat) :
    ((l.map (fun q => if q.id == pid then { q with memberId := some mid } else q)).map
      passMask) = l.map passMask := by
  induction l with
  | nil => rfl
  | cons a l ih =>
    simp only [List.map_cons, ih]
    by_cases h : (a.id == pid) = true
    · simp [h, passMask]
    · simp [h]

theorem map_tokMask_backfill (l : List BookingPass) (pid : Nat) (mid : Nat) :
    ((l.map (fun q => if q.id == pid then { q with memberId := some mid } else q)).map
      tokMask) = l.map tokMask := by
  induction l with
  | nil => rfl
  | cons a l ih =>
    simp only [List.map_cons, ih]
    by_cases h : (a.id == pid) = true
    · simp [h, tokMask]
    · simp [h]

theorem gocm_bookingPasses (db : DB) (email : String) (phone : Option String) :
    (getOrCreateMemberByEmail db email phone).db.bookingPasses = db.bookingPasses := by
  unfold getOrCreateMemberByEmail
  dsimp only
  split <;> (try split) <;> rfl

theorem grantCredits_bookingPasses (db : DB) (m : Nat) (q : Int) (r : String) :
    (grantCredits db m q r).1.bookingPasses = db.bookingPasses := by
  unfold grantCredits
  split <;> rfl

theorem grantStep_bookingPasses (db : DB) (m : Nat) (ag : Bool) (q : Int) (r : String) :
    (grantStep db m ag q r).1.bookingPasses = db.bookingPasses := by
  unfold grantStep
  split <;> simp [grantCredits_bookingPasses]

theorem guestProfilesUpsert_bookingPasses (db : DB) (e : String) :
    (guestProfilesUpsert db e).bookingPasses = db.bookingPasses := by
  unfold guestProfilesUpsert
  dsimp only
  split <;> rfl

theorem stripe_passes_mask (env : StripeEnv) (ev : StripeEvent) (db : DB) :
    ∃ tail, (stripeWebhookPOST env ev db).db.bookingPasses.map passMask
        = db.bookingPasses.map passMask ++ tail
      ∧ tail.all (fun x => x.2 == none) = true := by
  unfold stripeWebhookPOST
  dsimp only
  split
  · exact ⟨[], by simp⟩
  · split
    · exact ⟨[], by simp⟩
    · split
      · -- checkout.session.completed
        split
        · exact ⟨[], by simp [markProcessed]⟩
        · split
          · exact ⟨[], by simp [markProcessed]⟩
          · split
            · exact ⟨[], by simp⟩
            · rename_i email heq
              split
              · exact ⟨[], by simp⟩
              · split
                · rename_i p heqp
                  split
                  · refine ⟨[], ?_, by simp⟩
                    simp only [markProcessed, guestProfilesUpsert_bookingPasses,
                      grantStep_bookingPasses, gocm_bookingPasses, List.append_nil]
                    exact map_passMask_backfill db.bookingPasses p.id _
                  · refine ⟨[], ?_⟩
                    simp [markProcessed, guestProfilesUpsert_bookingPasses,
                      grantStep_bookingPasses, gocm_bookingPasses]
                · refine ⟨[(email, none)], ?_, ?_⟩
                  · simp [markProcessed, guestProfilesUpsert_bookingPasses,
                      grantStep_bookingPasses, gocm_bookingPasses, passMask]
                  · simp
      · -- invoice.payment_succeeded
        split
        · exact ⟨[], by simp [markProcessed]⟩
        · split
          · refine ⟨[], ?_⟩
            simp [markProcessed, grantCredits_bookingPasses, gocm_bookingPasses]
          · exact ⟨[], by simp [markProcessed]⟩
      · exact ⟨[], by simp [markProcessed]⟩

theorem stripe_tok_mask (env : StripeEnv) (ev : StripeEvent) (db : DB) :
    ∃ tail, (stripeWebhookPOST env ev db).db.bookingPasses.map tokMask
        = db.bookingPasses.map tokMask ++ tail
      ∧ tail.all (fun x => x.1 == some env.freshToken && x.2 == none) = true := by
  unfold stripeWebhookPOST
  dsimp only
  split
  · exact ⟨[], by simp⟩
  · split
    · exact ⟨[], by simp⟩
    · split
      · -- checkout.session.completed
        split
        · exact ⟨[], by simp [markProcessed]⟩
        · split
          · exact ⟨[], by simp [markProcessed]⟩
          · split
            · exact ⟨[], by simp⟩
            · rename_i email heq
              split
              · exact ⟨[], by simp⟩
              · split
                · rename_i p heqp
                  split
                  · refine ⟨[], ?_, by simp⟩
                    simp only [markProcessed, guestProfilesUpsert_bookingPasses,
                      grantStep_bookingPasses, gocm_bookingPasses, List.append_nil]
                    exact map_tokMask_backfill db.bookingPasses p.id _
                  · refine ⟨[], ?_⟩
                    simp [markProcessed, guestProfilesUpsert_bookingPasses,
                      grantStep_bookingPasses, gocm_bookingPasses]
                · refine ⟨[(some env.freshToken, none)], ?_, ?_⟩
                  · simp [markProcessed, guestProfilesUpsert_bookingPasses,
                      grantStep_bookingPasses, gocm_bookingPasses, tokMask]
                  · simp
      · -- invoice.payment_succeeded
        split
        · exact ⟨[], by simp [markProcessed]⟩
        · split
          · refine ⟨[], ?_⟩
            simp [markProcessed, grantCredits_bookingPasses, gocm_bookingPasses]
          · exact ⟨[], by simp [markProcessed]⟩
      · exact ⟨[], by simp [markProcessed]⟩

theorem adminSendBookingPass_one_live (db : DB) (emailRaw : String) (mid : Option Nat)
    (tok : String) (now : Int)
    (h : (jsTrim (jsToLower emailRaw) == "") = false) :
    ((adminSendBookingPass db emailRaw mid tok now).1.bookingPasses.filter
      (fun p => p.email == jsTrim (jsToLower emailRaw) && p.usedAt == none)).length = 1 := by
  unfold adminSendBookingPass revokeUnusedPassesForEmail
  dsimp only
  simp only [h, Bool.false_eq_true, if_false]
  simp [List.filter_append, revoke_kills_live]
  intro a _ hmail
  by_cases hc : a.email = jsTrim (jsToLower emailRaw) ∧ a.usedAt = none
  · simp [hc]
  · simp only [if_neg hc] at hmail ⊢
    exact fun hu => hc ⟨hmail, hu⟩

theorem adminSendBookingPass_tokcols (db : DB) (emailRaw : String) (mid : Option Nat)
    (tok : String) (now : Int)
    (h : (jsTrim (jsToLower emailRaw) == "") = false) :
    ((adminSendBookingPass db emailRaw mid tok now).1.bookingPasses.map tokMask)
      = db.bookingPasses.map tokMask ++ [(none, some (sha256Hex tok))] := by
  unfold adminSendBookingPass revokeUnusedPassesForEmail
  dsimp only
  simp only [h, Bool.false_eq_true, if_false]
  rw [List.map_append, map_tokMask_revoke]
  rfl

theorem adminSendBookingPassV2_tokcols (db : DB) (emailRaw : String) (sid : Option String)
    (tok : String) (now : Int) (m : Member)
    (hne : (jsTrim emailRaw == "") = false)
    (hm : db.members.find? (fun x => jsToLower x.email == jsToLower (jsTrim emailRaw))
      = some m)
    (hbal : ¬(sendRouteBalance (db.creditsLedger.filter (fun r => r.memberId == m.id)) < 1)) :
    ((adminSendBookingPassV2 db emailRaw sid tok now).1.bookingPasses.map tokMask)
      = db.bookingPasses.map tokMask ++ [(some tok, some (sha256Hex tok))] := by
  unfold adminSendBookingPassV2
  dsimp only
  simp only [hne, Bool.false_eq_true, if_false, hm, hbal]
  rw [List.map_append]
  rfl

/-- C7 (amended): only the first admin send route invalidates prior passes:
after its mint exactly one unused pass for the normalized email remains.
The Stripe webhook handler never sets `used_at` on any existing pass — it
only ever appends one new unused pass (or leaves the pass table unchanged) —
so a Stripe mint over an existing unused pass leaves two live passes for the
same email. -/
theorem c7_amended_invalidation :
    (∀ db emailRaw mid tok now, (jsTrim (jsToLower emailRaw) == "") = false →
      ((adminSendBookingPass db emailRaw mid tok now).1.bookingPasses.filter
        (fun p => p.email == jsTrim (jsToLower emailRaw) && p.usedAt == none)).length = 1)
    ∧ (∀ env ev db, ∃ tail,
        (stripeWebhookPOST env ev db).db.bookingPasses.map passMask
          = db.bookingPasses.map passMask ++ tail
        ∧ tail.all (fun x => x.2 == none) = true) :=
  ⟨adminSendBookingPass_one_live, stripe_passes_mask⟩

/-- Witness for `c7_amended_invalidation` on concrete databases. -/
theorem c7_amended_invalidation_witness :
    ((adminSendBookingPass db7 "A@X.com" none "tk" 50).1.bookingPasses.filter
      (fun p => p.email == jsTrim (jsToLower "A@X.com") && p.usedAt == none)).length = 1
    ∧ (∃ tail,
        (stripeWebhookPOST envA (.checkoutCompleted "evt_7w" sessA) db7).db.bookingPasses.map
            passMask
          = db7.bookingPasses.map passMask ++ tail
        ∧ tail.all (fun x => x.2 == none) = true) :=
  ⟨c7_amended_invalidation.1 db7 "A@X.com" none "tk" 50 (by decide),
    c7_amended_invalidation.2 envA (.checkoutCompleted "evt_7w" sessA) db7⟩

/-- C8 (amended): what each mint path persists. The first admin variant
stores only the (unsalted) SHA-256 digest of the token, never the raw token;
the second admin variant stores both the raw token and its digest; the
Stripe webhook mint stores the raw token and no digest at all. -/
theorem c8_amended_token_storage :
    (∀ db emailRaw mid tok now, (jsTrim (jsToLower emailRaw) == "") = false →
      ((adminSendBookingPass db emailRaw mid tok now).1.bookingPasses.map tokMask)
        = db.bookingPasses.map tokMask ++ [(none, some (sha256Hex tok))])
    ∧ (∀ db emailRaw sid tok now m, (jsTrim emailRaw == "") = false →
        db.members.find? (fun x => jsToLower x.email == jsToLower (jsTrim emailRaw))
          = some m →
        ¬(sendRouteBalance (db.creditsLedger.filter (fun r => r.memberId == m.id)) < 1) →
        ((adminSendBookingPassV2 db emailRaw sid tok now).1.bookingPasses.map tokMask)
          = db.bookingPasses.map tokMask ++ [(some tok, some (sha256Hex tok))])
    ∧ (∀ env ev db, ∃ tail,
        (stripeWebhookPOST env ev db).db.bookingPasses.map tokMask
          = db.bookingPasses.map tokMask ++ tail
        ∧ tail.all (fun x => x.1 == some env.freshToken && x.2 == none) = true) :=
  ⟨adminSendBookingPass_tokcols,
    fun db emailRaw sid tok now m hne hm hbal =>
      adminSendBookingPassV2_tokcols db emailRaw sid tok now m hne hm hbal,
    stripe_tok_mask⟩

/-- Witness for `c8_amended_token_storage` on concrete databases. -/
theorem c8_amended_token_storage_witness :
    ((adminSendBookingPass DB.empty "A@X.com" none "tk" 50).1.bookingPasses.map tokMask)
      = [(none, some (sha256Hex "tk"))]
    ∧ ((adminSendBookingPassV2 db8 "Buyer@X.com" none "tk2" 50).1.bookingPasses.map tokMask)
      = [(some "tk2", some (sha256Hex "tk2"))]
    ∧ (∃ tail,
        (stripeWebhookPOST envA (.checkoutCompleted "evt_8w" sessA) DB.empty).db.bookingPasses.map
            tokMask
          = (DB.empty : DB).bookingPasses.map tokMask ++ tail
        ∧ tail.all (fun x => x.1 == some envA.freshToken && x.2 == none) = true) :=
  ⟨c8_amended_token_storage.1 DB.empty "A@X.com" none "tk" 50 (by decide),
    c8_amended_token_storage.2.1 db8 "Buyer@X.com" none "tk2" 50 memB (by decide) (by decide)
      (by decide),
    c8_amended_token_storage.2.2 envA (.checkoutCompleted "evt_8w" sessA) DB.empty⟩

/-! ## C4 / C5: Calendly redemption identity and issue records -/

theorem waiverSendBlock_creditsLedger (env : CalendlyEnv) (parsed : ParsedCalendly)
    (an : Option String) (db : DB) :
    (waiverSendBlock env parsed an db).creditsLedger = db.creditsLedger := by
  unfold waiverSendBlock upsertWaiver
  dsimp only
  repeat' split
  all_goals rfl

theorem waiverSendBlock_rsvps (env : CalendlyEnv) (parsed : ParsedCalendly)
    (an : Option String) (db : DB) :
    (waiverSendBlock env parsed an db).rsvps = db.rsvps := by
  unfold waiverSendBlock upsertWaiver
  dsimp only
  repeat' split
  all_goals rfl

theorem consumePassByToken_creditsLedger (db : DB) (t : String) (now : Int) :
    (consumePassByToken db t now).creditsLedger = db.creditsLedger := rfl

theorem consumePassByToken_rsvps (db : DB) (t : String) (now : Int) :
    (consumePassByToken db t now).rsvps = db.rsvps := rfl

theorem setRsvpName_creditsLedger (db : DB) (u : String) (n : Option String) :
    (setRsvpName db u n).creditsLedger = db.creditsLedger := rfl

theorem setRsvpName_mask (db : DB) (u : String) (n : Option String) :
    (setRsvpName db u n).rsvps.map rsvpMask = db.rsvps.map rsvpMask := by
  unfold setRsvpName
  dsimp only
  rw [List.map_map]
  apply List.map_congr_left
  intro a _
  by_cases h : (a.calendlyInviteeUri == u) = true <;>
    simp [h, rsvpMask, Function.comp]

theorem setRsvpInviteeEmail_creditsLedger (db : DB) (u : String) (em : String) :
    (setRsvpInviteeEmail db u em).creditsLedger = db.creditsLedger := rfl

theorem setRsvpInviteeEmail_mask (db : DB) (u : String) (em : String) :
    (setRsvpInviteeEmail db u em).rsvps.map rsvpMask
      = (db.rsvps.map rsvpMask).map (fun x => if x.1 == u then (x.1, em) else x) := by
  unfold setRsvpInviteeEmail
  dsimp only
  rw [List.map_map, List.map_map]
  apply List.map_congr_left
  intro a _
  by_cases h : (a.calendlyInviteeUri == u) = true <;>
    simp [h, rsvpMask, Function.comp]

theorem rpc_success_shape (db : DB) (email eventUri inviteeUri startAt : String)
    (endAt : Option String) (m : Member)
    (hno : db.rsvps.find? (fun r => r.calendlyInviteeUri == inviteeUri) = none)
    (hm : db.members.find? (fun x => x.email == jsToLower (jsTrim email)) = some m)
    (hbal : ¬(v_member_credit_balance
        (db.creditsLedger.filter (fun r => r.memberId == m.id)) < 1)) :
    redeem_credit_for_calendly db email eventUri inviteeUri startAt endAt
      = .ok ({ db with
          creditsLedger := db.creditsLedger ++
            [⟨m.id, "redeem", some 1, "calendly " ++ inviteeUri⟩],
          rsvps := db.rsvps ++
            [⟨db.nextId, inviteeUri, eventUri, email, none, startAt, endAt, m.id, false⟩],
          nextId := db.nextId + 1 }, db.nextId) := by
  unfold redeem_credit_for_calendly
  simp [hno, hm, hbal]

/-- C4: with a valid booking-pass token (pass found, unused, unexpired, with
a non-empty stored email), the redeeming identity is the pass's purchaser
email (lowercased and trimmed), the ledger redeem row is charged against the
member resolved from the pass email, and after the handler the rsvp row for
the invitee URI carries the actual invitee's email; when the token is absent
or no pass matches it, the invitee email is used directly. -/
theorem c4_redeeming_identity :
    (∀ (env : CalendlyEnv) (parsed : ParsedCalendly) (an : Option String) (db : DB)
        (t : String) (p : BookingPass) (m : Member) (gEmail eUri iUri sTime : String),
      parsed.eventType = some "invitee.created" →
      parsed.token = some t →
      db.bookingPasses.find? (fun q => q.token == some t) = some p →
      p.usedAt = none →
      (match p.expiresAt with | some e => decide (e ≤ env.now) | none => false) = false →
      (p.email != "") = true →
      (jsTrim (jsToLower p.email) != "") = true →
      parsed.inviteeEmail = some gEmail → (gEmail != "") = true →
      parsed.calendlyEventUri = some eUri → (eUri != "") = true →
      parsed.calendlyInviteeUri = some iUri → (iUri != "") = true →
      parsed.startTime = some sTime → (sTime != "") = true →
      db.rsvps.find? (fun r => r.calendlyInviteeUri == iUri) = none →
      db.members.find?
          (fun x => x.email == jsToLower (jsTrim (jsTrim (jsToLower p.email)))) = some m →
      ¬(v_member_credit_balance
          (db.creditsLedger.filter (fun r => r.memberId == m.id)) < 1) →
      resolveRedeemEmail db parsed env.now = some (jsTrim (jsToLower p.email))
      ∧ (calendlyWebhookPOST env parsed an db).db.creditsLedger
          = db.creditsLedger ++ [⟨m.id, "redeem", some 1, "calendly " ++ iUri⟩]
      ∧ (calendlyWebhookPOST env parsed an db).db.rsvps.map rsvpMask
          = db.rsvps.map rsvpMask ++ [(iUri, gEmail)]
      ∧ (calendlyWebhookPOST env parsed an db).status = 200)
    ∧ (∀ db parsed now, parsed.token = none →
        resolveRedeemEmail db parsed now = parsed.inviteeEmail)
    ∧ (∀ db parsed now t, parsed.token = some t →
        db.bookingPasses.find? (fun q => q.token == some t) = none →
        resolveRedeemEmail db parsed now = parsed.inviteeEmail) := by
  refine ⟨?_, ?_, ?_⟩
  · intro env parsed an db t p m gEmail eUri iUri sTime h1 h2 h3 h4 h5 h6 h6b h7 h7b
      h8 h8b h9 h9b h10 h10b h11 h12 h13
    have hA : resolveRedeemEmail db parsed env.now = some (jsTrim (jsToLower p.email)) := by
      unfold resolveRedeemEmail
      rw [h2]
      dsimp only
      rw [h3]
      dsimp only
      simp [h4, h5, h6]
    have hrpc := rpc_success_shape db (jsTrim (jsToLower p.email)) eUri iUri sTime
      parsed.endTime m h11 h12 h13
    refine ⟨hA, ?_⟩
    unfold calendlyWebhookPOST
    dsimp only
    rw [hA, h1, h2, h7, h8, h9, h10]
    simp only [isT, h7b, h8b, h9b, h10b, h6b, beq_self_eq_true, Bool.and_self,
      Bool.not_true, Bool.false_eq_true, if_false, Option.getD_some, bne_self_eq_false,
      Bool.true_and, Bool.and_true]
    rw [hrpc]
    dsimp only
    simp only [if_true]
    have hold : ∀ x ∈ db.rsvps.map rsvpMask, (x.1 == iUri) = false := by
      intro x hx
      rcases List.mem_map.mp hx with ⟨r, hr, rfl⟩
      have hnone := List.find?_eq_none.mp h11 r hr
      simpa [rsvpMask] using hnone
    refine ⟨?_, ?_, trivial⟩
    · by_cases hc : (some gEmail != some (jsTrim (jsToLower p.email))) = true
      · simp only [hc, if_true, setRsvpInviteeEmail_creditsLedger,
          waiverSendBlock_creditsLedger, consumePassByToken_creditsLedger,
          setRsvpName_creditsLedger]
      · simp only [Bool.not_eq_true] at hc
        simp only [hc, Bool.false_eq_true, if_false, waiverSendBlock_creditsLedger,
          consumePassByToken_creditsLedger, setRsvpName_creditsLedger]
    · by_cases hc : (some gEmail != some (jsTrim (jsToLower p.email))) = true
      · simp only [hc, if_true]
        rw [setRsvpInviteeEmail_mask, waiverSendBlock_rsvps, consumePassByToken_rsvps,
          setRsvpName_mask]
        dsimp only
        simp only [List.map_append, List.map_cons, List.map_nil]
        rw [show ((db.rsvps.map rsvpMask).map
            (fun x => if x.1 == iUri then (x.1, gEmail) else x)) = db.rsvps.map rsvpMask by
          have hpt : ∀ x ∈ db.rsvps.map rsvpMask,
              (if x.1 == iUri then (x.1, gEmail) else x) = x := by
            intro x hx
            simp [hold x hx]
          exact (List.map_congr_left hpt).trans (List.map_id' _)]
        simp [rsvpMask]
      · simp only [Bool.not_eq_true] at hc
        have hge : gEmail = jsTrim (jsToLower p.email) := by
          simpa using hc
        simp only [hc, Bool.false_eq_true, if_false]
        rw [waiverSendBlock_rsvps, consumePassByToken_rsvps, setRsvpName_mask]
        dsimp only
        simp [rsvpMask, hge]
  · intro db parsed now h
    unfold resolveRedeemEmail
    rw [h]
  · intro db parsed now t h hf
    unfold resolveRedeemEmail
    rw [h]
    dsimp only
    rw [hf]

theorem upsertIssue_frames (db : DB) (row : BookingIssue) :
    (upsertIssue db row).bookingPasses = db.bookingPasses
    ∧ (upsertIssue db row).members = db.members
    ∧ (upsertIssue db row).rsvps = db.rsvps
    ∧ (upsertIssue db row).creditsLedger = db.creditsLedger
    ∧ (upsertIssue db row).nextId = db.nextId := by
  unfold upsertIssue
  split <;> exact ⟨rfl, rfl, rfl, rfl, rfl⟩

theorem upsertIssue_idem (db : DB) (row : BookingIssue) :
    upsertIssue (upsertIssue db row) row = upsertIssue db row := by
  by_cases h : (db.bookingIssues.any
      (fun i => i.calendlyInviteeUri == row.calendlyInviteeUri)) = true
  · simp only [upsertIssue, h, if_true]
    have hany2 : ((db.bookingIssues.map
        (fun i => if i.calendlyInviteeUri == row.calendlyInviteeUri then row else i)).any
        (fun i => i.calendlyInviteeUri == row.calendlyInviteeUri)) = true := by
      rcases List.any_eq_true.mp h with ⟨x, hx, hpx⟩
      exact List.any_eq_true.mpr
        ⟨row, List.mem_map.mpr ⟨x, hx, by simp [hpx]⟩, by simp⟩
    simp only [hany2, if_true]
    congr 1
    rw [List.map_map]
    apply List.map_congr_left
    intro x _
    by_cases hm : (x.calendlyInviteeUri == row.calendlyInviteeUri) = true
    · simp [Function.comp, hm]
    · simp [Function.comp, hm]
  · simp only [Bool.not_eq_true] at h
    simp only [upsertIssue, h, Bool.false_eq_true, if_false]
    have hany2 : ((db.bookingIssues ++ [row]).any
        (fun i => i.calendlyInviteeUri == row.calendlyInviteeUri)) = true :=
      List.any_eq_true.mpr ⟨row, by simp, by simp⟩
    simp only [hany2, if_true]
    congr 1
    rw [List.map_append]
    have holds : ∀ x ∈ db.bookingIssues,
        ¬(x.calendlyInviteeUri == row.calendlyInviteeUri) = true := by
      intro x hx hpx
      have hcontra : (db.bookingIssues.any
          (fun i => i.calendlyInviteeUri == row.calendlyInviteeUri)) = true :=
        List.any_eq_true.mpr ⟨x, hx, hpx⟩
      rw [h] at hcontra
      exact absurd hcontra (by decide)
    have h1 : db.bookingIssues.map
        (fun i => if i.calendlyInviteeUri == row.calendlyInviteeUri then row else i)
        = db.bookingIssues := by
      have hpt : ∀ x ∈ db.bookingIssues,
          (if x.calendlyInviteeUri == row.calendlyInviteeUri then row else x) = x := by
        intro x hx
        simp [Bool.eq_false_iff.mpr (holds x hx)]
      exact (List.map_congr_left hpt).trans (List.map_id' _)
    rw [h1]
    simp

theorem resolveRedeemEmail_eq_of_passes (db db' : DB) (parsed : ParsedCalendly) (now : Int)
    (h : db'.bookingPasses = db.bookingPasses) :
    resolveRedeemEmail db' parsed now = resolveRedeemEmail db parsed now := by
  unfold resolveRedeemEmail
  rw [h]

theorem rpc_error_stable (db db' : DB) (email eventUri inviteeUri startAt : String)
    (endAt : Option String)
    (hr : db'.rsvps = db.rsvps) (hm : db'.members = db.members)
    (hl : db'.creditsLedger = db.creditsLedger)
    (herr : redeem_credit_for_calendly db email eventUri inviteeUri startAt endAt
      = .error "INSUFFICIENT_CREDITS") :
    redeem_credit_for_calendly db' email eventUri inviteeUri startAt endAt
      = .error "INSUFFICIENT_CREDITS" := by
  unfold redeem_credit_for_calendly at herr ⊢
  rw [hr, hm, hl]
  cases hfind : db.rsvps.find? (fun r => r.calendlyInviteeUri == inviteeUri) with
  | some r =>
    rw [hfind] at herr
    simp at herr
  | none =>
    rw [hfind] at herr
    dsimp only at herr
    cases hfm : db.members.find? (fun x => x.email == jsToLower (jsTrim email)) with
    | none => simp
    | some mm =>
      rw [hfm] at herr
      dsimp only at herr
      by_cases hb : v_member_credit_balance
          (db.creditsLedger.filter (fun r => r.memberId == mm.id)) < 1
      · simp [hb]
      · rw [if_neg hb] at herr
        simp at herr

/-- C5: when the redemption RPC fails with `INSUFFICIENT_CREDITS` on an
`invitee.created` event with all required fields, the handler upserts a
booking issue keyed by the invitee URI — error code `INSUFFICIENT_CREDITS`,
invitee email from the booking, member id best-effort-linked by email — and
still acknowledges HTTP 200; and a retried identical delivery leaves the
outcome unchanged (the upsert updates, it does not duplicate). -/
theorem c5_insufficient_credits_issue :
    ∀ (env : CalendlyEnv) (parsed : ParsedCalendly) (an : Option String) (db : DB)
      (re gEmail eUri iUri sTime : String),
    parsed.eventType = some "invitee.created" →
    parsed.inviteeEmail = some gEmail → (gEmail != "") = true →
    parsed.calendlyEventUri = some eUri → (eUri != "") = true →
    parsed.calendlyInviteeUri = some iUri → (iUri != "") = true →
    parsed.startTime = some sTime → (sTime != "") = true →
    resolveRedeemEmail db parsed env.now = some re →
    redeem_credit_for_calendly db re eUri iUri sTime parsed.endTime
      = .error "INSUFFICIENT_CREDITS" →
    (calendlyWebhookPOST env parsed an db
      = ⟨upsertIssue db ⟨iUri, eUri, gEmail,
          (db.members.find? (fun x => x.email == re)).map (fun x => x.id),
          some sTime, parsed.endTime, "INSUFFICIENT_CREDITS", "INSUFFICIENT_CREDITS"⟩, 200⟩)
    ∧ calendlyWebhookPOST env parsed an (calendlyWebhookPOST env parsed an db).db
      = calendlyWebhookPOST env parsed an db := by
  intro env parsed an db re gEmail eUri iUri sTime h1 h7 h7b h8 h8b h9 h9b h10 h10b hre herr
  have hic : isInsufficientCredits "INSUFFICIENT_CREDITS" = true := by decide
  have hrun : ∀ (db0 : DB),
      resolveRedeemEmail db0 parsed env.now = some re →
      redeem_credit_for_calendly db0 re eUri iUri sTime parsed.endTime
        = .error "INSUFFICIENT_CREDITS" →
      calendlyWebhookPOST env parsed an db0
        = ⟨upsertIssue db0 ⟨iUri, eUri, gEmail,
            (db0.members.find? (fun x => x.email == re)).map (fun x => x.id),
            some sTime, parsed.endTime, "INSUFFICIENT_CREDITS", "INSUFFICIENT_CREDITS"⟩,
            200⟩ := by
    intro db0 hre0 herr0
    unfold calendlyWebhookPOST
    dsimp only
    rw [hre0, h1, h7, h8, h9, h10]
    simp only [isT, h7b, h8b, h9b, h10b, beq_self_eq_true, Bool.and_self, Bool.not_true,
      Bool.false_eq_true, if_false, Option.getD_some, Bool.true_and, Bool.and_true]
    rw [herr0]
    dsimp only
    simp only [hic, if_true]
  refine ⟨hrun db hre herr, ?_⟩
  rw [hrun db hre herr]
  dsimp only
  have hfr := upsertIssue_frames db ⟨iUri, eUri, gEmail,
    (db.members.find? (fun x => x.email == re)).map (fun x => x.id),
    some sTime, parsed.endTime, "INSUFFICIENT_CREDITS", "INSUFFICIENT_CREDITS"⟩
  have hre2 : resolveRedeemEmail (upsertIssue db ⟨iUri, eUri, gEmail,
      (db.members.find? (fun x => x.email == re)).map (fun x => x.id),
      some sTime, parsed.endTime, "INSUFFICIENT_CREDITS", "INSUFFICIENT_CREDITS"⟩)
      parsed env.now = some re := by
    rw [resolveRedeemEmail_eq_of_passes db _ parsed env.now hfr.1, hre]
  have herr2 := rpc_error_stable db (upsertIssue db ⟨iUri, eUri, gEmail,
      (db.members.find? (fun x => x.email == re)).map (fun x => x.id),
      some sTime, parsed.endTime, "INSUFFICIENT_CREDITS", "INSUFFICIENT_CREDITS"⟩)
    re eUri iUri sTime parsed.endTime hfr.2.2.1 hfr.2.1 hfr.2.2.2.1 herr
  rw [hrun _ hre2 herr2, hfr.2.1, upsertIssue_idem]

/-- Witness for `c4_redeeming_identity` on the concrete fixtures. -/
theorem c4_redeeming_identity_witness :
    resolveRedeemEmail dbC4 parsedC4 0 = some "buyer@x.com"
    ∧ (calendlyWebhookPOST envC4 parsedC4 none dbC4).db.creditsLedger
        = dbC4.creditsLedger ++ [⟨0, "redeem", some 1, "calendly inv_1"⟩]
    ∧ (calendlyWebhookPOST envC4 parsedC4 none dbC4).db.rsvps.map rsvpMask
        = dbC4.rsvps.map rsvpMask ++ [("inv_1", "guest@y.com")]
    ∧ (calendlyWebhookPOST envC4 parsedC4 none dbC4).status = 200
    ∧ resolveRedeemEmail dbC4 parsedC5 0 = some "guest@y.com" := by
  have h := c4_redeeming_identity.1 envC4 parsedC4 none dbC4 "tkn" passC4 memC4
    "guest@y.com" "ev_1" "inv_1" "2026-01-01"
    rfl rfl (by decide) rfl (by decide) (by decide) (by decide)
    rfl (by decide) rfl (by decide) rfl (by decide) rfl (by decide)
    rfl (by decide) (by decide)
  have hb := c4_redeeming_identity.2.1 dbC4 parsedC5 0 rfl
  exact ⟨h.1, h.2.1, h.2.2.1, h.2.2.2, hb⟩

/-- Witness for `c5_insufficient_credits_issue` on an empty database (no
member for the invitee email, hence no credits). -/
theorem c5_insufficient_credits_issue_witness :
    calendlyWebhookPOST envC4 parsedC5 none DB.empty
      = ⟨upsertIssue DB.empty ⟨"inv_2", "ev_2", "guest@y.com", none, some "2026-01-02",
          none, "INSUFFICIENT_CREDITS", "INSUFFICIENT_CREDITS"⟩, 200⟩
    ∧ calendlyWebhookPOST envC4 parsedC5 none
        (calendlyWebhookPOST envC4 parsedC5 none DB.empty).db
      = calendlyWebhookPOST envC4 parsedC5 none DB.empty := by
  have h := c5_insufficient_credits_issue envC4 parsedC5 none DB.empty
    "guest@y.com" "guest@y.com" "ev_2" "inv_2" "2026-01-02"
    rfl rfl (by decide) rfl (by decide) rfl (by decide) rfl (by decide)
    rfl rfl
  exact ⟨h.1, h.2⟩

/-! ## C9: signature-completion detectors -/

/-- C9 (counterexample): a document whose top-level `status` is exactly
"fulfilled" is marked signed by the spec's canonical tiered detector (its
last tier matches "fulfilled" in the top-level status) and by the operator
check, but the reconciliation-poll detector `looksSigned` reports it *not*
signed — so the poll detector does not apply the claimed strategy order
(or its strategies): it checks the top-level status first and only for
equality with "completed"/"signed". -/
theorem c9_counterexample :
    looksSigned { status := some "fulfilled" } = false
    ∧ specTieredCompleted { status := some "fulfilled" } = true
    ∧ looksCompleted { status := some "fulfilled" } = true := by
  decide

/-- C9 (amended): the two detectors are pure disjunctions of their signal
sets, each checked with the top-level status first. The poll detector
(`looksSigned`) fires on: top-level `status`/`document_status`/
`signing_status` *equal* to "completed"/"signed", the `is_completed` flag,
all field-invite statuses fulfilled/completed/signed, or any signature
status done. The operator check (`looksCompleted`) fires on: the first
present top-level status *containing* "completed"/"signed"/"fulfilled" (or
equal to "complete"), any boolean completion flag, or every
signer/recipient record signed. Neither applies field-invite fulfillment
first; since every strategy only ever reports a positive, the evaluation
order does not change the verdict — the two detectors differ in their
signal sets, not their tiering. -/
theorem c9_amended_detector_signals (doc : SnDoc) :
    looksSigned doc
      = (snTopStatusSignal doc || snFlagSignal doc || snInvitesSignal doc
          || snSignaturesSignal doc)
    ∧ looksCompleted doc
      = (opStatusSignal doc || opFlagSignal doc || opSignersSignal doc) := by
  constructor
  · unfold looksSigned snTopStatusSignal snFlagSignal snInvitesSignal snSignaturesSignal
    dsimp only
    split_ifs <;> simp_all [Bool.or_eq_true]
  · unfold looksCompleted opStatusSignal opFlagSignal opSignersSignal
    dsimp only
    split_ifs <;> simp_all [Bool.or_eq_true]
